import Mathlib

/-!
Shallow embedding of the Dungeon Dice Tactician combat engine
(src/js/Dice.js, src/js/Player.js, src/js/Enemy.js, src/js/Item.js,
src/js/Merchant.js, src/js/GameManager.js).

Conventions of the embedding:
* JavaScript numbers are modelled as `Int` where the program only ever holds
  integers, and as `ℚ` for the fractional constants (crit multiplier 2.0,
  attack reduction 0.5, life-steal 0.3, ...); `Math.floor` is `Int.floor`.
* Optional object fields are `Option` fields; a JS truthiness test
  `if (obj.field)` on a numeric field is true exactly when the field is
  present and nonzero (`truthyInt` / `truthyRat`).
* Mutation is explicit state passing: a method that mutates `this` and
  returns `r` becomes a function returning the new state paired with `r`.
* Ambient randomness (`Math.random()` call sites) is injected through an
  explicit `Rng` record, one field per call site, as the spec's design notes
  prescribe for testability.
-/

namespace DDT

/-- JS truthiness of an optional integer field: present and nonzero. -/
def truthyInt : Option Int → Bool
  | none => false
  | some v => v != 0

/-- JS truthiness of an optional rational field: present and nonzero. -/
def truthyRat : Option ℚ → Bool
  | none => false
  | some v => v != 0

/-- A status-effect record: the bag of optional named fields the engine
creates (`Player.js`, `Enemy.js`, `Item.js`, `GameManager.js`). -/
structure Effect where
  name : String
  duration : Option Int := none
  damage : Option Int := none
  healing : Option Int := none
  defense : Option Int := none
  attack : Option Int := none
  bonusAttack : Option Int := none
  bonusDefense : Option Int := none
  attackReduction : Option ℚ := none
  blockDamage : Option Int := none
  dodgeChance : Option ℚ := none
  reflectDamage : Option ℚ := none
  attackBonus : Option Int := none
  defenseBonus : Option Int := none
  goldMultiplier : Option ℚ := none
  healPerTurn : Option Int := none
  priceMultiplier : Option ℚ := none
  permanent : Bool := false
  revive : Bool := false
  reviveHP : Option ℚ := none
  diceBonus : Option Int := none
  firstRollMax : Bool := false
  guaranteedCrit : Bool := false
  magicBonus : Option Int := none
  symbolChance : Option ℚ := none
  doubleSymbols : Bool := false
  randomEffect : Bool := false
  extraTurn : Bool := false
  burnImmune : Bool := false
  poisonDamage : Option Int := none
  abilityBonus : Option ℚ := none
  deriving DecidableEq

/-- Effect-list pass shared by `Player.updateEffects` and the second half of
`Enemy.updateEffects`: decrement each finite duration, drop the expired. -/
def tickDurations (effects : List Effect) : List Effect :=
  (effects.map fun e =>
    match e.duration with
    | some d => { e with duration := some (d - 1) }
    | none => e).filter fun e =>
      match e.duration with
      | some d => d > 0
      | none => true

/-- One face of a die (`DiceFace` in Dice.js). -/
structure DiceFace where
  type : String
  value : Int := 0
  symbol : Option String := none
  deriving DecidableEq

/-- A die (`Dice` in Dice.js): identity, face list, current rolled face. -/
structure Die where
  id : Nat
  faces : List DiceFace := []
  currentFace : Option DiceFace := none
  isRolled : Bool := false
  deriving DecidableEq

def Die.getFaceValue (d : Die) : Int :=
  match d.currentFace with
  | some f => f.value
  | none => 0

def Die.getFaceType (d : Die) : Option String :=
  d.currentFace.map (·.type)

def Die.getFaceSymbol (d : Die) : Option String :=
  d.currentFace.bind (·.symbol)

/-- The per-class counter dictionary (`Player.initializeClassCounters`);
every counter the source ever initializes, all starting at 0. -/
structure Counters where
  momentum : Int := 0
  earthCount : Int := 0
  stoneCount : Int := 0
  crystalCount : Int := 0
  darknessStacks : Int := 0
  voidPower : Int := 0
  flameStacks : Int := 0
  burnDamage : Int := 0
  frostStacks : Int := 0
  chillDuration : Int := 0
  lightningCharge : Int := 0
  windStacks : Int := 0
  growthStacks : Int := 0
  healingPower : Int := 0
  bloodStacks : Int := 0
  lifeSteal : Int := 0
  holyPower : Int := 0
  divineShield : Int := 0
  chaosStacks : Int := 0
  wildMagic : Int := 0
  timeStacks : Int := 0
  hasteEffect : Int := 0
  spiritCount : Int := 0
  summonPower : Int := 0
  deriving DecidableEq

/-- The item catalog (Item.js): one constructor per concrete item class. -/
inductive Item where
  | sharpenedEdge | blessedBarrier | ironPlate | powerGauntlets
  | vampiricBlade | berserkersRage | turtleShell
  | healthPotion | greaterHealthPotion | maxHealthUpgrade | phoenixFeather
  | rerollToken | luckyDie | diceFaceUpgrade | loadedDice
  | criticalEdge | savageBlow | guaranteedCritItem
  | magicAmplifier | symbolCollector | doubleSymbol
  | thornArmor | shieldOfFaith | evasionCloak
  | goldMagnet | extraGold | merchantDiscount
  | balancedBlade | chaosCrystal | bloodPact | regenerationRing
  | focusedMind | timeWarpAmulet | dragonScale | poisonVial
  deriving DecidableEq

/-- The sparse result record shared by all passive/special abilities
(Player.js); absent JS fields are `none`/`false`. -/
structure AbilityOutcome where
  bonusDamage : Option Int := none
  damage : Option Int := none
  bonusDefense : Option Int := none
  selfDamage : Option Int := none
  isCrit : Bool := false
  success : Option Bool := none
  message : Option String := none
  applyEffect : Option Effect := none
  skipEnemyTurn : Bool := false
  deriving DecidableEq

/-- Injected randomness: one field per `Math.random()` call site reached in
a single engine call, plus the ambient date string used by `saveBestRun`. -/
structure Rng where
  chaosIndex : Nat := 0
  chaosDamage : Nat := 0
  critRoll : ℚ := 99
  dodgeRoll : ℚ := 1
  behaviorRoll : ℚ := 0
  enemyChoice : Nat := 0
  dateStr : String := ""

/-- Player state (Player.js constructor). -/
structure Player where
  className : String
  maxHP : Int := 100
  currentHP : Int := 100
  gold : Int := 0
  attackBonus : Int := 0
  defenseBonus : Int := 0
  critChance : ℚ := 0
  critMultiplier : ℚ := 2
  momentum : Int := 0
  unspentSymbols : Int := 0
  consecutiveAttacks : Int := 0
  effects : List Effect := []
  items : List Item := []
  rerollsPerRound : Int := 0
  rerollsUsed : Int := 0
  specialCounters : Counters := {}
  deriving DecidableEq

def Player.takeDamage (p : Player) (amount : Int) : Player × Int :=
  let actualDamage := max 0 amount
  ({ p with currentHP := max 0 (p.currentHP - actualDamage) }, actualDamage)

def Player.heal (p : Player) (amount : Int) : Player × Int :=
  let actualHeal := min amount (p.maxHP - p.currentHP)
  ({ p with currentHP := min p.maxHP (p.currentHP + actualHeal) }, actualHeal)

def Player.addGold (p : Player) (amount : Int) : Player :=
  { p with gold := p.gold + amount }

def Player.spendGold (p : Player) (amount : Int) : Player × Bool :=
  if p.gold ≥ amount then ({ p with gold := p.gold - amount }, true) else (p, false)

def Player.addEffect (p : Player) (e : Effect) : Player :=
  { p with effects := p.effects ++ [e] }

def Player.removeEffect (p : Player) (effectName : String) : Player :=
  { p with effects := p.effects.filter (fun e => e.name ≠ effectName) }

def Player.hasEffect (p : Player) (effectName : String) : Bool :=
  p.effects.any (fun e => e.name == effectName)

/-- `Player.updateEffects` (Player.js lines 99-107): decrements finite
durations and drops expired effects; it applies no damage or healing. -/
def Player.updateEffects (p : Player) : Player :=
  { p with effects := tickDurations p.effects }

def Player.resetRerolls (p : Player) : Player := { p with rerollsUsed := 0 }

def Player.isAlive (p : Player) : Bool := p.currentHP > 0

def Player.getHPPercentage (p : Player) : ℚ :=
  ((p.currentHP : ℚ) / (p.maxHP : ℚ)) * 100

def Player.getTotalAttackBonus (p : Player) : Int :=
  p.effects.foldl (fun t e => t + e.attack.getD 0 + e.bonusAttack.getD 0)
    p.attackBonus

def Player.getTotalDefenseBonus (p : Player) : Int :=
  let total := p.effects.foldl
    (fun t e => t + e.defense.getD 0 + e.bonusDefense.getD 0) p.defenseBonus
  if p.specialCounters.divineShield > 0 then
    total + p.specialCounters.divineShield
  else total

/-- The combat context handed to ability resolvers (GameManager.js). -/
structure CombatContext where
  attackValue : Int := 0
  defenseValue : Int := 0
  specialDice : List Die := []
  round : Int := 0
  deriving DecidableEq

/-- `context.specialDice.filter(d => d.getFaceSymbol() === s).length`. -/
def countSymbol (dice : List Die) (s : String) : Int :=
  ((dice.filter fun d => d.getFaceSymbol == some s).length : Int)

/-- `context.specialDice.filter(d => d.getFaceType() === t).length`. -/
def countFaceType (dice : List Die) (t : String) : Int :=
  ((dice.filter fun d => d.getFaceType == some t).length : Int)

end DDT

namespace DDT

/-- Blade Dancer passive (Player.js): momentum counter and bonus damage. -/
def Player.bladeDancerPassive (p : Player) (ctx : CombatContext) :
    Player × AbilityOutcome :=
  if ctx.attackValue > 0 then
    let c := { p.specialCounters with momentum := p.specialCounters.momentum + 1 }
    ({ p with specialCounters := c },
     { bonusDamage := some c.momentum,
       message := some ("Momentum +" ++ toString c.momentum ++ " damage!") })
  else
    ({ p with specialCounters := { p.specialCounters with momentum := 0 } }, {})

def Player.bladeDancerSpecial (p : Player) (ctx : CombatContext) :
    Player × AbilityOutcome :=
  let critCount := countFaceType ctx.specialDice "crit"
  if critCount ≥ 2 then
    let damage := ctx.attackValue * 3
    (p, { damage := some damage,
          message := some "Cyclone Slash! 300% damage!", success := some true })
  else (p, { success := some false })

def Player.geomancerPassive (p : Player) (ctx : CombatContext) :
    Player × AbilityOutcome :=
  let symbols := ctx.specialDice.map (·.getFaceSymbol)
  if symbols.contains (some "earth") && symbols.contains (some "stone") &&
      symbols.contains (some "crystal") then
    (p, { bonusDamage := some 10, bonusDefense := some 10,
          message := some "Earthshatter! +10 attack and defense!" })
  else (p, {})

def Player.geomancerSpecial (p : Player) (ctx : CombatContext) :
    Player × AbilityOutcome :=
  let stoneCount := countSymbol ctx.specialDice "stone"
  if stoneCount ≥ 1 then
    (p.addEffect { name := "Stoneform", defense := some 25, duration := some 1 },
     { message := some "Stoneform! +25 defense next round!", success := some true })
  else (p, { success := some false })

def Player.shadowPriestPassive (p : Player) (ctx : CombatContext) :
    Player × AbilityOutcome :=
  let unspentDarkness := ((ctx.specialDice.filter fun d =>
    d.getFaceSymbol == some "darkness" || d.getFaceSymbol == some "void" ||
      d.getFaceSymbol == some "shadow").length : Int)
  if unspentDarkness > 0 then
    let c := { p.specialCounters with
      darknessStacks := p.specialCounters.darknessStacks + unspentDarkness * 2 }
    ({ p with specialCounters := c },
     { message := some ("Deepening Void: +" ++ toString (unspentDarkness * 2) ++
         " power stored (Total: " ++ toString c.darknessStacks ++ ")") })
  else (p, {})

def Player.shadowPriestSpecial (p : Player) (_ctx : CombatContext) :
    Player × AbilityOutcome :=
  if p.specialCounters.darknessStacks ≥ 5 then
    let p := (p.takeDamage 5).1
    let bonusDamage := 20 + p.specialCounters.darknessStacks
    let p := { p with specialCounters := { p.specialCounters with darknessStacks := 0 } }
    (p, { bonusDamage := some bonusDamage,
          message := some ("Sacrifice! Lost 5 HP, +" ++ toString bonusDamage ++ " damage!"),
          success := some true })
  else (p, { success := some false })

def Player.pyromanticPassive (p : Player) (ctx : CombatContext) :
    Player × AbilityOutcome :=
  let flameCount := countSymbol ctx.specialDice "flame"
  if flameCount > 0 then
    ({ p with specialCounters := { p.specialCounters with
        flameStacks := p.specialCounters.flameStacks + flameCount } },
     { bonusDamage := some (flameCount * 2),
       message := some ("Burning Fury: +" ++ toString (flameCount * 2) ++ " fire damage!") })
  else (p, {})

def Player.pyromanticSpecial (p : Player) (ctx : CombatContext) :
    Player × AbilityOutcome :=
  let flameCount := countSymbol ctx.specialDice "flame"
  if flameCount ≥ 3 then
    let damage : Int := 40
    let p := { p with specialCounters := { p.specialCounters with burnDamage := 10 } }
    (p, { bonusDamage := some damage,
          message := some "INFERNO! 40 instant damage + 10 burn damage for 3 rounds!",
          success := some true,
          applyEffect := some { name := "Burn", damage := some 10, duration := some 3 } })
  else (p, { success := some false })

def Player.frostWeaverPassive (p : Player) (ctx : CombatContext) :
    Player × AbilityOutcome :=
  let frostCount := countSymbol ctx.specialDice "frost"
  if frostCount > 0 then
    ({ p with specialCounters := { p.specialCounters with
        frostStacks := p.specialCounters.frostStacks + frostCount } },
     { bonusDefense := some (frostCount * 3),
       message := some ("Frost Armor: +" ++ toString (frostCount * 3) ++ " defense!") })
  else (p, {})

def Player.frostWeaverSpecial (p : Player) (ctx : CombatContext) :
    Player × AbilityOutcome :=
  let frostCount := countSymbol ctx.specialDice "frost"
  if frostCount ≥ 2 then
    (p, { message := some "Frozen Prison! Enemy attack reduced by 50% for 2 rounds!",
          success := some true,
          applyEffect := some { name := "Frozen", attackReduction := some (1/2),
                                duration := some 2 } })
  else (p, { success := some false })

def Player.stormCallerPassive (p : Player) (ctx : CombatContext) :
    Player × AbilityOutcome :=
  let lightningCount := countSymbol ctx.specialDice "lightning"
  if lightningCount > 0 then
    ({ p with
        specialCounters := { p.specialCounters with
          lightningCharge := p.specialCounters.lightningCharge + lightningCount },
        critChance := p.critChance + ((lightningCount * 10 : Int) : ℚ) },
     { message := some ("Lightning Charge: +" ++ toString (lightningCount * 10) ++
         "% crit chance!") })
  else (p, {})

def Player.stormCallerSpecial (p : Player) (ctx : CombatContext) :
    Player × AbilityOutcome :=
  let lightningCount := countSymbol ctx.specialDice "lightning"
  if lightningCount ≥ 2 then
    let damage : Int := 35
    (p, { bonusDamage := some damage, isCrit := true,
          message := some "THUNDERSTRIKE! 35 guaranteed critical damage!",
          success := some true })
  else (p, { success := some false })

def Player.natureShamanPassive (p : Player) (ctx : CombatContext) :
    Player × AbilityOutcome :=
  let natureCount := countSymbol ctx.specialDice "nature"
  if natureCount > 0 then
    let healAmount := natureCount * 3
    ((p.heal healAmount).1,
     { message := some ("Natures Blessing: Healed " ++ toString healAmount ++ " HP!") })
  else (p, {})

def Player.natureShamanSpecial (p : Player) (ctx : CombatContext) :
    Player × AbilityOutcome :=
  let natureCount := countSymbol ctx.specialDice "nature"
  if natureCount ≥ 3 then
    let healAmount : Int := 25
    let p := (p.heal healAmount).1
    let p := p.addEffect { name := "Regeneration", healing := some 5, duration := some 3 }
    (p, { message := some ("Wild Growth! Healed " ++ toString healAmount ++
            " HP + 5 HP regen for 3 rounds!"),
          success := some true })
  else (p, { success := some false })

def Player.bloodKnightPassive (p : Player) (ctx : CombatContext) :
    Player × AbilityOutcome :=
  let bloodCount := countSymbol ctx.specialDice "blood"
  if bloodCount > 0 && ctx.attackValue > 0 then
    let lifeSteal := Int.floor ((ctx.attackValue : ℚ) * (3/10) * (bloodCount : ℚ))
    ((p.heal lifeSteal).1,
     { message := some ("Blood Pact: Healed " ++ toString lifeSteal ++
         " HP from life steal!") })
  else (p, {})

def Player.bloodKnightSpecial (p : Player) (ctx : CombatContext) :
    Player × AbilityOutcome :=
  let bloodCount := countSymbol ctx.specialDice "blood"
  if bloodCount ≥ 2 then
    let sacrifice : Int := 15
    let bonusDamage : Int := 50
    let p := (p.takeDamage sacrifice).1
    (p, { bonusDamage := some bonusDamage,
          message := some ("Blood Sacrifice! Lost " ++ toString sacrifice ++ " HP for " ++
            toString bonusDamage ++ " extra damage!"),
          success := some true })
  else (p, { success := some false })

def Player.holyPaladinPassive (p : Player) (ctx : CombatContext) :
    Player × AbilityOutcome :=
  let holyCount := countSymbol ctx.specialDice "holy"
  if holyCount > 0 then
    ({ p with specialCounters := { p.specialCounters with
        holyPower := p.specialCounters.holyPower + holyCount } },
     { bonusDefense := some (holyCount * 4),
       message := some ("Divine Protection: +" ++ toString (holyCount * 4) ++ " defense!") })
  else (p, {})

def Player.holyPaladinSpecial (p : Player) (ctx : CombatContext) :
    Player × AbilityOutcome :=
  let holyCount := countSymbol ctx.specialDice "holy"
  if holyCount ≥ 2 && p.specialCounters.holyPower ≥ 5 then
    let healAmount : Int := 20
    let p := (p.heal healAmount).1
    let p := { p with specialCounters :=
      { p.specialCounters with divineShield := 30, holyPower := 0 } }
    (p, { message := some ("Divine Shield! Healed " ++ toString healAmount ++
            " HP + absorb 30 damage!"),
          success := some true })
  else (p, { success := some false })

def Player.chaosMagePassive (p : Player) (ctx : CombatContext) (rng : Rng) :
    Player × AbilityOutcome :=
  let chaosCount := countSymbol ctx.specialDice "chaos"
  if chaosCount > 0 then
    let randomEffects : List AbilityOutcome :=
      [{ bonusDamage := some 15, message := some "Chaos Surge: +15 damage!" },
       { bonusDefense := some 15, message := some "Chaos Ward: +15 defense!" },
       { bonusDamage := some 25, selfDamage := some 5,
         message := some "Wild Magic: +25 damage, -5 HP!" },
       { bonusDefense := some 20, bonusDamage := some 10,
         message := some "Chaos Balance: +10 damage, +20 defense!" }]
    let effect := randomEffects.getD (rng.chaosIndex % 4) {}
    let p := if truthyInt effect.selfDamage then
        (p.takeDamage (effect.selfDamage.getD 0)).1
      else p
    (p, effect)
  else (p, {})

def Player.chaosMageSpecial (p : Player) (ctx : CombatContext) (rng : Rng) :
    Player × AbilityOutcome :=
  let chaosCount := countSymbol ctx.specialDice "chaos"
  if chaosCount ≥ 2 then
    let randomValue : Int := ((rng.chaosDamage % 60 : Nat) : Int) + 20
    (p, { bonusDamage := some randomValue,
          message := some ("CHAOS BOLT! " ++ toString randomValue ++ " random damage!"),
          success := some true })
  else (p, { success := some false })

def Player.timeWeaverPassive (p : Player) (ctx : CombatContext) :
    Player × AbilityOutcome :=
  let timeCount := countSymbol ctx.specialDice "time"
  if timeCount > 0 then
    let c := { p.specialCounters with
      timeStacks := p.specialCounters.timeStacks + timeCount }
    ({ p with specialCounters := c },
     { message := some ("Time Dilation: Stored " ++ toString timeCount ++
         " time stacks (Total: " ++ toString c.timeStacks ++ ")") })
  else (p, {})

def Player.timeWeaverSpecial (p : Player) (ctx : CombatContext) :
    Player × AbilityOutcome :=
  let timeCount := countSymbol ctx.specialDice "time"
  if timeCount ≥ 3 && p.specialCounters.timeStacks ≥ 6 then
    let p := { p with specialCounters := { p.specialCounters with timeStacks := 0 } }
    let p := p.addEffect { name := "Haste", bonusAttack := some 10,
                           bonusDefense := some 10, duration := some 2 }
    (p, { message := some "TIME WARP! +10 attack and defense for 2 rounds + enemy skip next turn!",
          success := some true, skipEnemyTurn := true })
  else (p, { success := some false })

def Player.spiritSummonerPassive (p : Player) (ctx : CombatContext) :
    Player × AbilityOutcome :=
  let spiritCount := countSymbol ctx.specialDice "spirit"
  if spiritCount > 0 then
    let c := { p.specialCounters with
      spiritCount := p.specialCounters.spiritCount + spiritCount }
    ({ p with specialCounters := c },
     { bonusDamage := some (c.spiritCount * 2),
       message := some ("Spirit Power: +" ++ toString (c.spiritCount * 2) ++
         " damage from " ++ toString c.spiritCount ++ " spirits!") })
  else (p, {})

def Player.spiritSummonerSpecial (p : Player) (ctx : CombatContext) :
    Player × AbilityOutcome :=
  let spiritCount := countSymbol ctx.specialDice "spirit"
  if spiritCount ≥ 3 then
    let damage : Int := 30
    let p := p.addEffect { name := "Spirit Guardian", defense := some 15,
                           attack := some 8, duration := some 2 }
    (p, { bonusDamage := some damage,
          message := some "SPIRIT GUARDIAN! 30 damage + summon guardian (+8 attack, +15 defense for 2 rounds)!",
          success := some true })
  else (p, { success := some false })

/-- `Player.applyPassiveAbility`: name-keyed dispatch over the class roster;
an unknown class yields the empty outcome. -/
def Player.applyPassiveAbility (p : Player) (ctx : CombatContext) (rng : Rng) :
    Player × AbilityOutcome :=
  if p.className == "Blade Dancer" then p.bladeDancerPassive ctx
  else if p.className == "Geomancer" then p.geomancerPassive ctx
  else if p.className == "Shadow Priest" then p.shadowPriestPassive ctx
  else if p.className == "Pyromantic" then p.pyromanticPassive ctx
  else if p.className == "Frost Weaver" then p.frostWeaverPassive ctx
  else if p.className == "Storm Caller" then p.stormCallerPassive ctx
  else if p.className == "Nature Shaman" then p.natureShamanPassive ctx
  else if p.className == "Blood Knight" then p.bloodKnightPassive ctx
  else if p.className == "Holy Paladin" then p.holyPaladinPassive ctx
  else if p.className == "Chaos Mage" then p.chaosMagePassive ctx rng
  else if p.className == "Time Weaver" then p.timeWeaverPassive ctx
  else if p.className == "Spirit Summoner" then p.spiritSummonerPassive ctx
  else (p, {})

/-- `Player.activateSpecial`: name-keyed dispatch over the class roster;
an unknown class yields the empty outcome. -/
def Player.activateSpecial (p : Player) (ctx : CombatContext) (rng : Rng) :
    Player × AbilityOutcome :=
  if p.className == "Blade Dancer" then p.bladeDancerSpecial ctx
  else if p.className == "Geomancer" then p.geomancerSpecial ctx
  else if p.className == "Shadow Priest" then p.shadowPriestSpecial ctx
  else if p.className == "Pyromantic" then p.pyromanticSpecial ctx
  else if p.className == "Frost Weaver" then p.frostWeaverSpecial ctx
  else if p.className == "Storm Caller" then p.stormCallerSpecial ctx
  else if p.className == "Nature Shaman" then p.natureShamanSpecial ctx
  else if p.className == "Blood Knight" then p.bloodKnightSpecial ctx
  else if p.className == "Holy Paladin" then p.holyPaladinSpecial ctx
  else if p.className == "Chaos Mage" then p.chaosMageSpecial ctx rng
  else if p.className == "Time Weaver" then p.timeWeaverSpecial ctx
  else if p.className == "Spirit Summoner" then p.spiritSummonerSpecial ctx
  else (p, {})

end DDT

namespace DDT

/-- An enemy action returned by a behavior function (Enemy.js). -/
structure EnemyAction where
  type : String
  value : Int := 0
  message : Option String := none
  poison : Option Int := none
  burn : Option Int := none
  lifeSteal : Option ℚ := none
  deriving DecidableEq

/-- Enemy state (Enemy.js constructor), minus the behavior closure, which is
kept separately so the state stays first-order. -/
structure EnemyData where
  name : String
  type : String
  maxHP : Int
  currentHP : Int
  baseAttack : Int
  attack : Int
  defense : Int := 0
  turnCounter : Int := 0
  effects : List Effect := []
  chargeCounter : Int := 0
  specialCooldown : Int := 0
  goldReward : Int := 10
  hasSplit : Bool := false
  hasRevived : Bool := false
  phase : Int := 1
  deriving DecidableEq

/-- `Enemy.calculateGoldReward`: category-keyed gold table. -/
def calculateGoldReward (t : String) : Int :=
  if t == "minion" then 10
  else if t == "elite" then 25
  else if t == "boss" then 50
  else 10

/-- The `Enemy` constructor. -/
def mkEnemy (name type' : String) (hp attack : Int) (defense : Int := 0) :
    EnemyData :=
  { name := name, type := type', maxHP := hp, currentHP := hp,
    baseAttack := attack, attack := attack, defense := defense,
    goldReward := calculateGoldReward type' }

/-- `Enemy.takeDamage`: flat defense is subtracted here, floored at 0, and
HP is floored at 0. -/
def EnemyData.takeDamage (e : EnemyData) (amount : Int) : EnemyData × Int :=
  let actualDamage := max 0 (amount - e.defense)
  ({ e with currentHP := max 0 (e.currentHP - actualDamage) }, actualDamage)

def EnemyData.heal (e : EnemyData) (amount : Int) : EnemyData × Int :=
  let actualHeal := min amount (e.maxHP - e.currentHP)
  ({ e with currentHP := min e.maxHP (e.currentHP + actualHeal) }, actualHeal)

def EnemyData.isAlive (e : EnemyData) : Bool := e.currentHP > 0

def EnemyData.addEffect (e : EnemyData) (eff : Effect) : EnemyData :=
  { e with effects := e.effects ++ [eff] }

def EnemyData.removeEffect (e : EnemyData) (effectName : String) : EnemyData :=
  { e with effects := e.effects.filter (fun eff => eff.name ≠ effectName) }

def EnemyData.hasEffect (e : EnemyData) (effectName : String) : Bool :=
  e.effects.any (fun eff => eff.name == effectName)

/-- `Enemy.updateEffects` (Enemy.js lines 66-85): first route every present
damage field through `takeDamage` and every present healing field through
`heal`, in list order; then decrement finite durations and drop expired. -/
def EnemyData.updateEffects (e : EnemyData) : EnemyData :=
  let e := e.effects.foldl (fun acc eff =>
    let acc := if truthyInt eff.damage then (acc.takeDamage (eff.damage.getD 0)).1 else acc
    if truthyInt eff.healing then (acc.heal (eff.healing.getD 0)).1 else acc) e
  { e with effects := tickDurations e.effects }

def EnemyData.getHPPercentage (e : EnemyData) : ℚ :=
  ((e.currentHP : ℚ) / (e.maxHP : ℚ)) * 100

def EnemyData.getTotalAttack (e : EnemyData) : Int :=
  e.effects.foldl (fun t eff => t + eff.attackBonus.getD 0) e.attack

def EnemyData.getTotalDefense (e : EnemyData) : Int :=
  e.effects.foldl (fun t eff => t + eff.defenseBonus.getD 0) e.defense

/-- An archetype behavior closure (`enemy.behavior`); takes the enemy state
and the `Math.random()` sample available to behaviors that draw one. -/
abbrev Behavior : Type := EnemyData → ℚ → EnemyData × EnemyAction

/-- `Enemy.getNextAction`: run the behavior if set, else a plain attack. -/
def EnemyData.getNextAction (e : EnemyData) (behavior : Option Behavior) (r : ℚ) :
    EnemyData × EnemyAction :=
  match behavior with
  | some b => b e r
  | none => (e, { type := "attack", value := e.attack })

/-- `Enemy.executeAction`: bump the turn counter, ask the behavior for the
action, then halve (etc.) an attack value under a Frozen effect. -/
def EnemyData.executeAction (e : EnemyData) (behavior : Option Behavior) (r : ℚ) :
    EnemyData × EnemyAction :=
  let e := { e with turnCounter := e.turnCounter + 1 }
  let (e, action) := e.getNextAction behavior r
  if action.type == "attack" && e.hasEffect "Frozen" then
    match e.effects.find? (fun eff => eff.name == "Frozen") with
    | some frozenEffect =>
      if truthyRat frozenEffect.attackReduction then
        (e, { action with value := Int.floor ((action.value : ℚ) *
                (1 - frozenEffect.attackReduction.getD 0)) })
      else (e, action)
    | none => (e, action)
  else (e, action)

end DDT

namespace DDT

/-- `EnemyFactory.scaleStats` result record. -/
structure ScaledStats where
  hp : Int
  attack : Int
  deriving DecidableEq

/-- `EnemyFactory.scaleStats`: multiplier `1 + round * 0.15`, floored. -/
def EnemyFactory.scaleStats (baseHP baseAttack roundNumber : Int) : ScaledStats :=
  let multiplier : ℚ := 1 + (roundNumber : ℚ) * (15/100)
  { hp := Int.floor ((baseHP : ℚ) * multiplier),
    attack := Int.floor ((baseAttack : ℚ) * multiplier) }

def EnemyFactory.createGoblin (roundNumber : Int) : EnemyData × Behavior :=
  let stats := EnemyFactory.scaleStats 30 8 roundNumber
  (mkEnemy "Goblin" "minion" stats.hp stats.attack 0,
   fun self _r => (self, { type := "attack", value := self.attack }))

def EnemyFactory.createSkeleton (roundNumber : Int) : EnemyData × Behavior :=
  let stats := EnemyFactory.scaleStats 25 10 roundNumber
  (mkEnemy "Skeleton" "minion" stats.hp stats.attack 2,
   fun self _r => (self, { type := "attack", value := self.attack }))

def EnemyFactory.createRat (roundNumber : Int) : EnemyData × Behavior :=
  let stats := EnemyFactory.scaleStats 20 6 roundNumber
  (mkEnemy "Giant Rat" "minion" stats.hp stats.attack 0,
   fun self _r => (self, { type := "attack", value := self.attack }))

def EnemyFactory.createBat (roundNumber : Int) : EnemyData × Behavior :=
  let stats := EnemyFactory.scaleStats 22 7 roundNumber
  (mkEnemy "Vampire Bat" "minion" stats.hp stats.attack 0,
   fun self _r => (self, { type := "attack", value := self.attack,
                           lifeSteal := some (3/10) }))

def EnemyFactory.createSlime (roundNumber : Int) : EnemyData × Behavior :=
  let stats := EnemyFactory.scaleStats 35 5 roundNumber
  (mkEnemy "Slime" "minion" stats.hp stats.attack 1,
   fun self _r =>
     if self.getHPPercentage < 30 && !self.hasSplit then
       ({ self with hasSplit := true }, { type := "heal", value := 10 })
     else (self, { type := "attack", value := self.attack }))

def EnemyFactory.createZombie (roundNumber : Int) : EnemyData × Behavior :=
  let stats := EnemyFactory.scaleStats 40 9 roundNumber
  (mkEnemy "Zombie" "minion" stats.hp stats.attack 1,
   fun self _r => (self, { type := "attack", value := self.attack }))

def EnemyFactory.createWolf (roundNumber : Int) : EnemyData × Behavior :=
  let stats := EnemyFactory.scaleStats 28 11 roundNumber
  (mkEnemy "Dire Wolf" "minion" stats.hp stats.attack 0,
   fun self _r =>
     if self.turnCounter % 2 == 0 then
       (self, { type := "attack", value := Int.floor ((self.attack : ℚ) * (3/2)),
                message := some "Savage Bite!" })
     else (self, { type := "attack", value := self.attack }))

def EnemyFactory.createSpider (roundNumber : Int) : EnemyData × Behavior :=
  let stats := EnemyFactory.scaleStats 26 8 roundNumber
  (mkEnemy "Giant Spider" "minion" stats.hp stats.attack 1,
   fun self _r =>
     if self.turnCounter % 3 == 0 then
       (self, { type := "attack", value := self.attack, poison := some 3,
                message := some "Poison Bite!" })
     else (self, { type := "attack", value := self.attack }))

def EnemyFactory.createBandit (roundNumber : Int) : EnemyData × Behavior :=
  let stats := EnemyFactory.scaleStats 32 10 roundNumber
  (mkEnemy "Bandit" "minion" stats.hp stats.attack 0,
   fun self _r => (self, { type := "attack", value := self.attack }))

def EnemyFactory.createCultist (roundNumber : Int) : EnemyData × Behavior :=
  let stats := EnemyFactory.scaleStats 27 7 roundNumber
  (mkEnemy "Cultist" "minion" stats.hp stats.attack 0,
   fun self _r =>
     let self := { self with chargeCounter := self.chargeCounter + 1 }
     if self.chargeCounter ≥ 3 then
       ({ self with chargeCounter := 0 },
        { type := "attack", value := self.attack * 2, message := some "Dark Ritual!" })
     else
       (self, { type := "attack", value := Int.floor ((self.attack : ℚ) * (1/2)),
                message := some "Charging..." }))

def EnemyFactory.createImp (roundNumber : Int) : EnemyData × Behavior :=
  let stats := EnemyFactory.scaleStats 24 9 roundNumber
  (mkEnemy "Imp" "minion" stats.hp stats.attack 0,
   fun self r =>
     let variance := Int.floor (r * 6) - 3
     (self, { type := "attack", value := self.attack + variance }))

def EnemyFactory.createGhost (roundNumber : Int) : EnemyData × Behavior :=
  let stats := EnemyFactory.scaleStats 23 8 roundNumber
  (mkEnemy "Ghost" "minion" stats.hp stats.attack 0,
   fun self _r =>
     if self.turnCounter % 4 == 0 then
       (self, { type := "defend", value := 10, message := some "Ethereal Form" })
     else (self, { type := "attack", value := self.attack }))

def EnemyFactory.createWisp (roundNumber : Int) : EnemyData × Behavior :=
  let stats := EnemyFactory.scaleStats 20 7 roundNumber
  (mkEnemy "Wisp" "minion" stats.hp stats.attack 0,
   fun self _r => (self, { type := "attack", value := self.attack }))

def EnemyFactory.createMushroom (roundNumber : Int) : EnemyData × Behavior :=
  let stats := EnemyFactory.scaleStats 38 6 roundNumber
  (mkEnemy "Poison Mushroom" "minion" stats.hp stats.attack 2,
   fun self _r => (self, { type := "attack", value := self.attack, poison := some 2 }))

def EnemyFactory.createCrab (roundNumber : Int) : EnemyData × Behavior :=
  let stats := EnemyFactory.scaleStats 33 8 roundNumber
  (mkEnemy "Giant Crab" "minion" stats.hp stats.attack 3,
   fun self _r => (self, { type := "attack", value := self.attack }))

def EnemyFactory.createSnake (roundNumber : Int) : EnemyData × Behavior :=
  let stats := EnemyFactory.scaleStats 25 9 roundNumber
  (mkEnemy "Viper" "minion" stats.hp stats.attack 0,
   fun self _r =>
     if self.turnCounter % 2 == 0 then
       (self, { type := "attack", value := self.attack, poison := some 4,
                message := some "Venomous Strike!" })
     else (self, { type := "attack", value := self.attack }))

def EnemyFactory.createScorpion (roundNumber : Int) : EnemyData × Behavior :=
  let stats := EnemyFactory.scaleStats 29 10 roundNumber
  (mkEnemy "Giant Scorpion" "minion" stats.hp stats.attack 1,
   fun self _r => (self, { type := "attack", value := self.attack, poison := some 2 }))

def EnemyFactory.createHarpy (roundNumber : Int) : EnemyData × Behavior :=
  let stats := EnemyFactory.scaleStats 27 11 roundNumber
  (mkEnemy "Harpy" "minion" stats.hp stats.attack 0,
   fun self _r =>
     if self.turnCounter % 3 == 0 then
       (self, { type := "attack", value := Int.floor ((self.attack : ℚ) * (8/5)),
                message := some "Dive Bomb!" })
     else (self, { type := "attack", value := self.attack }))

def EnemyFactory.createGremlin (roundNumber : Int) : EnemyData × Behavior :=
  let stats := EnemyFactory.scaleStats 26 9 roundNumber
  (mkEnemy "Gremlin" "minion" stats.hp stats.attack 0,
   fun self _r => (self, { type := "attack", value := self.attack }))

def EnemyFactory.createShadowling (roundNumber : Int) : EnemyData × Behavior :=
  let stats := EnemyFactory.scaleStats 24 10 roundNumber
  (mkEnemy "Shadowling" "minion" stats.hp stats.attack 0,
   fun self _r => (self, { type := "attack", value := self.attack }))

def EnemyFactory.createFireElemental (roundNumber : Int) : EnemyData × Behavior :=
  let stats := EnemyFactory.scaleStats 30 12 roundNumber
  (mkEnemy "Fire Elemental" "minion" stats.hp stats.attack 0,
   fun self _r => (self, { type := "attack", value := self.attack, burn := some 2 }))

def EnemyFactory.createIceElemental (roundNumber : Int) : EnemyData × Behavior :=
  let stats := EnemyFactory.scaleStats 32 9 roundNumber
  (mkEnemy "Ice Elemental" "minion" stats.hp stats.attack 2,
   fun self _r => (self, { type := "attack", value := self.attack }))

def EnemyFactory.createWindElemental (roundNumber : Int) : EnemyData × Behavior :=
  let stats := EnemyFactory.scaleStats 28 11 roundNumber
  (mkEnemy "Wind Elemental" "minion" stats.hp stats.attack 0,
   fun self _r => (self, { type := "attack", value := self.attack }))

def EnemyFactory.createEarthElemental (roundNumber : Int) : EnemyData × Behavior :=
  let stats := EnemyFactory.scaleStats 45 8 roundNumber
  (mkEnemy "Earth Elemental" "minion" stats.hp stats.attack 4,
   fun self _r => (self, { type := "attack", value := self.attack }))

def EnemyFactory.createCorruptedKnight (roundNumber : Int) : EnemyData × Behavior :=
  let stats := EnemyFactory.scaleStats 35 11 roundNumber
  (mkEnemy "Corrupted Knight" "minion" stats.hp stats.attack 3,
   fun self _r => (self, { type := "attack", value := self.attack }))

end DDT

namespace DDT

def EnemyFactory.createStoneGolem (roundNumber : Int) : EnemyData × Behavior :=
  let stats := EnemyFactory.scaleStats 80 12 roundNumber
  (mkEnemy "Stone Golem" "elite" stats.hp stats.attack 5,
   fun self _r =>
     if self.turnCounter % 3 == 0 then
       (self, { type := "attack", value := Int.floor ((self.attack : ℚ) * 2),
                message := some "Boulder Smash!" })
     else (self, { type := "attack", value := self.attack }))

def EnemyFactory.createDarkMage (roundNumber : Int) : EnemyData × Behavior :=
  let stats := EnemyFactory.scaleStats 60 18 roundNumber
  (mkEnemy "Dark Mage" "elite" stats.hp stats.attack 2,
   fun self _r =>
     if self.turnCounter % 2 == 0 then
       (self, { type := "attack", value := Int.floor ((self.attack : ℚ) * (13/10)),
                message := some "Dark Blast!" })
     else (self, { type := "attack", value := self.attack, message := some "Curse!" }))

def EnemyFactory.createBerserker (roundNumber : Int) : EnemyData × Behavior :=
  let stats := EnemyFactory.scaleStats 70 20 roundNumber
  (mkEnemy "Berserker" "elite" stats.hp stats.attack 1,
   fun self _r =>
     let hpPercent := self.getHPPercentage
     let rageBonus := if hpPercent < 50 then Int.floor ((self.attack : ℚ) * (1/2)) else 0
     (self, { type := "attack", value := self.attack + rageBonus }))

def EnemyFactory.createNecromancer (roundNumber : Int) : EnemyData × Behavior :=
  let stats := EnemyFactory.scaleStats 55 14 roundNumber
  (mkEnemy "Necromancer" "elite" stats.hp stats.attack 2,
   fun self _r =>
     if self.turnCounter % 4 == 0 then
       (self, { type := "heal", value := 20, message := some "Death Siphon!" })
     else (self, { type := "attack", value := self.attack }))

def EnemyFactory.createAssassin (roundNumber : Int) : EnemyData × Behavior :=
  let stats := EnemyFactory.scaleStats 50 25 roundNumber
  (mkEnemy "Shadow Assassin" "elite" stats.hp stats.attack 0,
   fun self _r =>
     if self.turnCounter % 3 == 0 then
       (self, { type := "attack", value := Int.floor ((self.attack : ℚ) * (9/5)),
                message := some "Backstab!" })
     else (self, { type := "attack", value := self.attack }))

def EnemyFactory.createWarlock (roundNumber : Int) : EnemyData × Behavior :=
  let stats := EnemyFactory.scaleStats 65 16 roundNumber
  (mkEnemy "Warlock" "elite" stats.hp stats.attack 3,
   fun self _r =>
     if self.turnCounter % 2 == 0 then
       (self, { type := "attack", value := self.attack, poison := some 5,
                message := some "Curse of Pain!" })
     else (self, { type := "attack", value := self.attack }))

def EnemyFactory.createVampire (roundNumber : Int) : EnemyData × Behavior :=
  let stats := EnemyFactory.scaleStats 60 17 roundNumber
  (mkEnemy "Vampire Lord" "elite" stats.hp stats.attack 2,
   fun self _r => (self, { type := "attack", value := self.attack,
                           lifeSteal := some (1/2) }))

def EnemyFactory.createWerewolf (roundNumber : Int) : EnemyData × Behavior :=
  let stats := EnemyFactory.scaleStats 75 19 roundNumber
  (mkEnemy "Werewolf" "elite" stats.hp stats.attack 2,
   fun self _r =>
     if self.turnCounter % 3 == 0 then
       (self, { type := "attack", value := Int.floor ((self.attack : ℚ) * (17/10)),
                message := some "Feral Frenzy!" })
     else (self, { type := "attack", value := self.attack }))

def EnemyFactory.createMinotaur (roundNumber : Int) : EnemyData × Behavior :=
  let stats := EnemyFactory.scaleStats 85 18 roundNumber
  (mkEnemy "Minotaur" "elite" stats.hp stats.attack 4,
   fun self _r =>
     let self := { self with chargeCounter := self.chargeCounter + 1 }
     if self.chargeCounter ≥ 3 then
       ({ self with chargeCounter := 0 },
        { type := "attack", value := Int.floor ((self.attack : ℚ) * (5/2)),
          message := some "CHARGE!" })
     else (self, { type := "attack", value := self.attack }))

def EnemyFactory.createHydra (roundNumber : Int) : EnemyData × Behavior :=
  let stats := EnemyFactory.scaleStats 70 15 roundNumber
  (mkEnemy "Hydra" "elite" stats.hp stats.attack 3,
   fun self _r =>
     (self, { type := "attack", value := Int.floor ((self.attack : ℚ) * (3/2)),
              message := some "Multiple heads strike!" }))

def EnemyFactory.createPhoenix (roundNumber : Int) : EnemyData × Behavior :=
  let stats := EnemyFactory.scaleStats 55 20 roundNumber
  (mkEnemy "Phoenix" "elite" stats.hp stats.attack 1,
   fun self _r =>
     if self.currentHP ≤ 0 && !self.hasRevived then
       ({ self with hasRevived := true,
                    currentHP := Int.floor ((self.maxHP : ℚ) * (1/2)) },
        { type := "revive", message := some "Phoenix rises from ashes!" })
     else (self, { type := "attack", value := self.attack, burn := some 3 }))

def EnemyFactory.createFrostGiant (roundNumber : Int) : EnemyData × Behavior :=
  let stats := EnemyFactory.scaleStats 90 16 roundNumber
  (mkEnemy "Frost Giant" "elite" stats.hp stats.attack 5,
   fun self _r =>
     if self.turnCounter % 3 == 0 then
       (self, { type := "attack", value := Int.floor ((self.attack : ℚ) * (9/5)),
                message := some "Glacial Slam!" })
     else (self, { type := "attack", value := self.attack }))

def EnemyFactory.createDemonLord (roundNumber : Int) : EnemyData × Behavior :=
  let stats := EnemyFactory.scaleStats 75 22 roundNumber
  (mkEnemy "Demon Lord" "elite" stats.hp stats.attack 3,
   fun self _r =>
     if self.turnCounter % 2 == 0 then
       (self, { type := "attack", value := Int.floor ((self.attack : ℚ) * (3/2)),
                message := some "Hellfire!" })
     else (self, { type := "attack", value := self.attack }))

def EnemyFactory.createDragonKnight (roundNumber : Int) : EnemyData × Behavior :=
  let stats := EnemyFactory.scaleStats 80 20 roundNumber
  (mkEnemy "Dragon Knight" "elite" stats.hp stats.attack 6,
   fun self _r =>
     if self.turnCounter % 4 == 0 then
       (self, { type := "attack", value := Int.floor ((self.attack : ℚ) * 2),
                message := some "Dragon Breath!", burn := some 5 })
     else (self, { type := "attack", value := self.attack }))

def EnemyFactory.createLich (roundNumber : Int) : EnemyData × Behavior :=
  let stats := EnemyFactory.scaleStats 65 18 roundNumber
  (mkEnemy "Lich" "elite" stats.hp stats.attack 4,
   fun self _r =>
     if self.turnCounter % 3 == 0 then
       (self, { type := "heal", value := 15, message := some "Life Drain!" })
     else (self, { type := "attack", value := self.attack, poison := some 4 }))

def EnemyFactory.createDragon (roundNumber : Int) : EnemyData × Behavior :=
  let stats := EnemyFactory.scaleStats 150 25 roundNumber
  (mkEnemy "Ancient Dragon" "boss" stats.hp stats.attack 8,
   fun self _r =>
     if self.getHPPercentage < 50 && self.phase == 1 then
       ({ self with phase := 2 },
        { type := "attack", value := Int.floor ((self.attack : ℚ) * 3),
          message := some "MEGA DRAGON BREATH!", burn := some 10 })
     else if self.turnCounter % 3 == 0 then
       (self, { type := "attack", value := Int.floor ((self.attack : ℚ) * 2),
                message := some "Dragon Breath!", burn := some 5 })
     else (self, { type := "attack", value := self.attack }))

def EnemyFactory.createDemonKing (roundNumber : Int) : EnemyData × Behavior :=
  let stats := EnemyFactory.scaleStats 140 28 roundNumber
  (mkEnemy "Demon King" "boss" stats.hp stats.attack 6,
   fun self _r =>
     if self.turnCounter % 4 == 0 then
       (self, { type := "attack", value := Int.floor ((self.attack : ℚ) * (5/2)),
                message := some "Infernal Judgment!" })
     else (self, { type := "attack", value := self.attack }))

def EnemyFactory.createAncientLich (roundNumber : Int) : EnemyData × Behavior :=
  let stats := EnemyFactory.scaleStats 120 22 roundNumber
  (mkEnemy "Ancient Lich" "boss" stats.hp stats.attack 7,
   fun self _r =>
     if self.turnCounter % 3 == 0 then
       (self, { type := "heal", value := 25, message := some "Soul Harvest!" })
     else (self, { type := "attack", value := self.attack, poison := some 6 }))

def EnemyFactory.createTitanGolem (roundNumber : Int) : EnemyData × Behavior :=
  let stats := EnemyFactory.scaleStats 180 20 roundNumber
  (mkEnemy "Titan Golem" "boss" stats.hp stats.attack 10,
   fun self _r =>
     let self := { self with chargeCounter := self.chargeCounter + 1 }
     if self.chargeCounter ≥ 4 then
       ({ self with chargeCounter := 0 },
        { type := "attack", value := Int.floor ((self.attack : ℚ) * (7/2)),
          message := some "EARTHQUAKE!" })
     else (self, { type := "attack", value := self.attack }))

def EnemyFactory.createVoidLord (roundNumber : Int) : EnemyData × Behavior :=
  let stats := EnemyFactory.scaleStats 130 26 roundNumber
  (mkEnemy "Void Lord" "boss" stats.hp stats.attack 7,
   fun self _r =>
     if self.turnCounter % 2 == 0 then
       (self, { type := "attack", value := Int.floor ((self.attack : ℚ) * (9/5)),
                message := some "Void Blast!" })
     else (self, { type := "attack", value := self.attack }))

def EnemyFactory.createArchmage (roundNumber : Int) : EnemyData × Behavior :=
  let stats := EnemyFactory.scaleStats 110 30 roundNumber
  (mkEnemy "Archmage" "boss" stats.hp stats.attack 5,
   fun self _r =>
     let spells := ["Fireball", "Lightning", "Ice Storm", "Arcane Missiles"]
     let spell := spells.getD (self.turnCounter % 4).toNat ""
     (self, { type := "attack", value := Int.floor ((self.attack : ℚ) * (3/2)),
              message := some (spell ++ "!") }))

def EnemyFactory.createDarkOverlord (roundNumber : Int) : EnemyData × Behavior :=
  let stats := EnemyFactory.scaleStats 145 27 roundNumber
  (mkEnemy "Dark Overlord" "boss" stats.hp stats.attack 8,
   fun self _r =>
     if self.turnCounter % 5 == 0 then
       (self, { type := "attack", value := Int.floor ((self.attack : ℚ) * 3),
                message := some "DARK OBLITERATION!" })
     else (self, { type := "attack", value := self.attack }))

def EnemyFactory.createCelestialBeing (roundNumber : Int) : EnemyData × Behavior :=
  let stats := EnemyFactory.scaleStats 125 24 roundNumber
  (mkEnemy "Celestial Being" "boss" stats.hp stats.attack 6,
   fun self _r =>
     if self.turnCounter % 3 == 0 then
       (self, { type := "heal", value := 20, message := some "Divine Regeneration!" })
     else (self, { type := "attack", value := self.attack }))

def EnemyFactory.createEldritchHorror (roundNumber : Int) : EnemyData × Behavior :=
  let stats := EnemyFactory.scaleStats 135 29 roundNumber
  (mkEnemy "Eldritch Horror" "boss" stats.hp stats.attack 7,
   fun self _r =>
     if self.turnCounter % 4 == 0 then
       (self, { type := "attack", value := Int.floor ((self.attack : ℚ) * (5/2)),
                message := some "Maddening Gaze!", poison := some 8 })
     else (self, { type := "attack", value := self.attack }))

def EnemyFactory.createPrimordialBeast (roundNumber : Int) : EnemyData × Behavior :=
  let stats := EnemyFactory.scaleStats 160 23 roundNumber
  (mkEnemy "Primordial Beast" "boss" stats.hp stats.attack 9,
   fun self _r =>
     if self.getHPPercentage < 30 then
       (self, { type := "attack", value := Int.floor ((self.attack : ℚ) * (5/2)),
                message := some "Primal Rage!" })
     else if self.turnCounter % 3 == 0 then
       (self, { type := "attack", value := Int.floor ((self.attack : ℚ) * (9/5)),
                message := some "Savage Roar!" })
     else (self, { type := "attack", value := self.attack }))

/-- The minion roster (`EnemyFactory.createMinion`), in source order. -/
def EnemyFactory.minionRoster : List (Int → EnemyData × Behavior) :=
  [EnemyFactory.createGoblin, EnemyFactory.createSkeleton, EnemyFactory.createRat,
   EnemyFactory.createBat, EnemyFactory.createSlime, EnemyFactory.createZombie,
   EnemyFactory.createWolf, EnemyFactory.createSpider, EnemyFactory.createBandit,
   EnemyFactory.createCultist, EnemyFactory.createImp, EnemyFactory.createGhost,
   EnemyFactory.createWisp, EnemyFactory.createMushroom, EnemyFactory.createCrab,
   EnemyFactory.createSnake, EnemyFactory.createScorpion, EnemyFactory.createHarpy,
   EnemyFactory.createGremlin, EnemyFactory.createShadowling,
   EnemyFactory.createFireElemental, EnemyFactory.createIceElemental,
   EnemyFactory.createWindElemental, EnemyFactory.createEarthElemental,
   EnemyFactory.createCorruptedKnight]

/-- The elite roster (`EnemyFactory.createElite`), in source order. -/
def EnemyFactory.eliteRoster : List (Int → EnemyData × Behavior) :=
  [EnemyFactory.createStoneGolem, EnemyFactory.createDarkMage,
   EnemyFactory.createBerserker, EnemyFactory.createNecromancer,
   EnemyFactory.createAssassin, EnemyFactory.createWarlock,
   EnemyFactory.createVampire, EnemyFactory.createWerewolf,
   EnemyFactory.createMinotaur, EnemyFactory.createHydra,
   EnemyFactory.createPhoenix, EnemyFactory.createFrostGiant,
   EnemyFactory.createDemonLord, EnemyFactory.createDragonKnight,
   EnemyFactory.createLich]

/-- The boss roster (`EnemyFactory.createBoss`), in source order. -/
def EnemyFactory.bossRoster : List (Int → EnemyData × Behavior) :=
  [EnemyFactory.createDragon, EnemyFactory.createDemonKing,
   EnemyFactory.createAncientLich, EnemyFactory.createTitanGolem,
   EnemyFactory.createVoidLord, EnemyFactory.createArchmage,
   EnemyFactory.createDarkOverlord, EnemyFactory.createCelestialBeing,
   EnemyFactory.createEldritchHorror, EnemyFactory.createPrimordialBeast]

/-- `EnemyFactory.createMinion`: uniform pick from the roster; the injected
`choice` stands for `Math.floor(Math.random() * minions.length)`. -/
def EnemyFactory.createMinion (roundNumber : Int) (choice : Nat) :
    EnemyData × Behavior :=
  (EnemyFactory.minionRoster.getD (choice % EnemyFactory.minionRoster.length)
    EnemyFactory.createGoblin) roundNumber

/-- `EnemyFactory.createElite`: uniform pick from the roster. -/
def EnemyFactory.createElite (roundNumber : Int) (choice : Nat) :
    EnemyData × Behavior :=
  (EnemyFactory.eliteRoster.getD (choice % EnemyFactory.eliteRoster.length)
    EnemyFactory.createStoneGolem) roundNumber

/-- `EnemyFactory.createBoss`: uniform pick from the roster. -/
def EnemyFactory.createBoss (roundNumber : Int) (choice : Nat) :
    EnemyData × Behavior :=
  (EnemyFactory.bossRoster.getD (choice % EnemyFactory.bossRoster.length)
    EnemyFactory.createDragon) roundNumber

/-- `EnemyFactory.createEnemy`: boss every 10th round, elite every 5th,
minion otherwise. -/
def EnemyFactory.createEnemy (roundNumber : Int) (choice : Nat) :
    EnemyData × Behavior :=
  let isBossRound := roundNumber % 10 == 0 && roundNumber > 0
  let isEliteRound := roundNumber % 5 == 0 && !isBossRound && roundNumber > 0
  if isBossRound then EnemyFactory.createBoss roundNumber choice
  else if isEliteRound then EnemyFactory.createElite roundNumber choice
  else EnemyFactory.createMinion roundNumber choice

end DDT

namespace DDT

/-- `Item.apply` for every catalog entry (Item.js); `diceFaceUpgrade` is a
no-op on the player (its effect lives in the UI layer, per its comment). -/
def Item.apply (i : Item) (p : Player) : Player :=
  match i with
  | .sharpenedEdge => { p with attackBonus := p.attackBonus + 3 }
  | .blessedBarrier => { p with defenseBonus := p.defenseBonus + 2 }
  | .ironPlate => { p with defenseBonus := p.defenseBonus + 5 }
  | .powerGauntlets => { p with attackBonus := p.attackBonus + 5 }
  | .vampiricBlade =>
      p.addEffect { name := "Vampiric", healing := some 2, permanent := true }
  | .berserkersRage =>
      { p with attackBonus := p.attackBonus + 8, defenseBonus := p.defenseBonus - 3 }
  | .turtleShell =>
      { p with defenseBonus := p.defenseBonus + 10, attackBonus := p.attackBonus - 2 }
  | .healthPotion => (p.heal 30).1
  | .greaterHealthPotion => (p.heal 50).1
  | .maxHealthUpgrade => { p with maxHP := p.maxHP + 20, currentHP := p.currentHP + 20 }
  | .phoenixFeather =>
      p.addEffect { name := "Phoenix Feather", revive := true, reviveHP := some (1/2),
                    permanent := true }
  | .rerollToken => { p with rerollsPerRound := p.rerollsPerRound + 1 }
  | .luckyDie => p.addEffect { name := "Lucky", diceBonus := some 2, permanent := true }
  | .diceFaceUpgrade => p
  | .loadedDice =>
      p.addEffect { name := "Loaded Dice", firstRollMax := true, permanent := true }
  | .criticalEdge => { p with critChance := p.critChance + 10 }
  | .savageBlow => { p with critMultiplier := 5/2 }
  | .guaranteedCritItem =>
      p.addEffect { name := "Guaranteed Crit", guaranteedCrit := true, duration := some 1 }
  | .magicAmplifier =>
      p.addEffect { name := "Magic Amplifier", magicBonus := some 5, permanent := true }
  | .symbolCollector =>
      p.addEffect { name := "Symbol Collector", symbolChance := some (1/5),
                    permanent := true }
  | .doubleSymbol =>
      p.addEffect { name := "Twin Rune", doubleSymbols := true, permanent := true }
  | .thornArmor =>
      p.addEffect { name := "Thorns", reflectDamage := some (3/10), permanent := true }
  | .shieldOfFaith =>
      p.addEffect { name := "Shield of Faith", blockDamage := some 5, permanent := true }
  | .evasionCloak =>
      p.addEffect { name := "Evasion", dodgeChance := some (1/5), permanent := true }
  | .goldMagnet =>
      p.addEffect { name := "Gold Magnet", goldMultiplier := some (3/2), permanent := true }
  | .extraGold => p.addGold 50
  | .merchantDiscount =>
      p.addEffect { name := "Discount", priceMultiplier := some (4/5), permanent := true }
  | .balancedBlade =>
      { p with attackBonus := p.attackBonus + 3, defenseBonus := p.defenseBonus + 3 }
  | .chaosCrystal =>
      p.addEffect { name := "Chaos Crystal", randomEffect := true, permanent := true }
  | .bloodPact =>
      { p with maxHP := p.maxHP - 5, currentHP := min p.currentHP (p.maxHP - 5),
               attackBonus := p.attackBonus + 10 }
  | .regenerationRing =>
      p.addEffect { name := "Regeneration", healPerTurn := some 3, permanent := true }
  | .focusedMind =>
      p.addEffect { name := "Focus", abilityBonus := some (3/10), permanent := true }
  | .timeWarpAmulet =>
      p.addEffect { name := "Time Warp", extraTurn := true, duration := some 1 }
  | .dragonScale =>
      let p := { p with defenseBonus := p.defenseBonus + 8 }
      p.addEffect { name := "Dragon Scale", burnImmune := true, permanent := true }
  | .poisonVial =>
      p.addEffect { name := "Poison Vial", poisonDamage := some 3, permanent := true }

/-- `Player.addItem`: record the item, then apply it exactly once. -/
def Player.addItem (p : Player) (i : Item) : Player :=
  i.apply { p with items := p.items ++ [i] }

/-- The four merchant classes of Merchant.js, identified by variant. -/
inductive MerchantKind where
  | normal | blackMarket | discount | mysterious
  deriving DecidableEq

/-- `MerchantFactory.createMerchant` (Merchant.js lines 1095-1110): the
source checks 9, then 6, then 12, each guarded by `encounterNumber > 0`. -/
def MerchantFactory.createMerchant (encounterNumber : Int) : MerchantKind :=
  if encounterNumber % 9 == 0 && encounterNumber > 0 then .blackMarket
  else if encounterNumber % 6 == 0 && encounterNumber > 0 then .discount
  else if encounterNumber % 12 == 0 && encounterNumber > 0 then .mysterious
  else .normal

/-- One persisted best-run summary (`saveBestRun`). -/
structure RunData where
  className : String := ""
  round : Int := 0
  enemiesDefeated : Int := 0
  damageDealt : Int := 0
  gold : Int := 0
  date : String := ""
  deriving DecidableEq

/-- Stable insertion step of the descending-by-round sort: a new element
goes after every element with a round at least as high, exactly where the
stable `Array.prototype.sort` comparator `(a, b) => b.round - a.round`
leaves a pushed-last element. -/
def insertByRoundDesc (x : RunData) : List RunData → List RunData
  | [] => [x]
  | y :: ys => if y.round ≥ x.round then y :: insertByRoundDesc x ys
               else x :: y :: ys

/-- Stable descending sort by `round`, modelling
`bestRuns.sort((a, b) => b.round - a.round)`. -/
def sortByRoundDesc (l : List RunData) : List RunData :=
  l.foldl (fun acc x => insertByRoundDesc x acc) []

/-- `GameManager.saveBestRun`, store-level: push the new summary, sort
descending by round, keep the top 10. -/
def saveBestRunStore (store : List RunData) (runData : RunData) : List RunData :=
  (sortByRoundDesc (store ++ [runData])).take 10

/-- The statistics record (`GameManager` constructor). -/
structure Stats where
  enemiesDefeated : Int := 0
  totalDamageDealt : Int := 0
  totalDamageTaken : Int := 0
  goldEarned : Int := 0
  itemsPurchased : Int := 0
  highestRound : Int := 0
  className : String := ""
  deriving DecidableEq

/-- One combat-log line. -/
structure LogEntry where
  type : String
  message : String
  deriving DecidableEq

/-- Build a combat-log line (`combatLog.push({type, message})`). -/
def logE (t m : String) : LogEntry := { type := t, message := m }

/-- GameManager state; `bestRuns` models the `localStorage` collection and
`enemyBehavior` carries the current enemy's behavior closure. -/
structure GM where
  player : Player
  enemy : EnemyData
  enemyBehavior : Option Behavior := none
  merchant : Option MerchantKind := none
  currentRound : Int := 0
  gameState : String := "menu"
  merchantEncounterCount : Int := 0
  assignedAttack : Option Die := none
  assignedDefense : Option Die := none
  assignedSpecial : List Die := []
  hasRolled : Bool := false
  stats : Stats := {}
  bestRuns : List RunData := []

/-- The record returned by `executeTurn` and the defeat handlers; the
`enemyAction` field records the enemy action as applied (and logged) during
the enemy phase, `none` when the enemy did not act. -/
structure TurnResult where
  success : Bool
  message : Option String := none
  combatLog : List LogEntry := []
  playerHP : Option Int := none
  enemyHP : Option Int := none
  enemyDefeated : Bool := false
  playerDefeated : Bool := false
  nextState : Option String := none
  statsOut : Option Stats := none
  enemyAction : Option EnemyAction := none

/-- `GameManager.canExecuteTurn`: rolled, and at least one die assigned.
The game state is not consulted. -/
def GM.canExecuteTurn (g : GM) : Bool :=
  g.hasRolled && (g.assignedAttack.isSome || g.assignedDefense.isSome ||
    g.assignedSpecial.length > 0)

/-- `GameManager.saveBestRun` at the manager level: load, append this run's
summary, sort, truncate, store. -/
def GM.saveBestRun (g : GM) (dateStr : String) : GM :=
  let runData : RunData :=
    { className := g.stats.className, round := g.currentRound - 1,
      enemiesDefeated := g.stats.enemiesDefeated,
      damageDealt := g.stats.totalDamageDealt,
      gold := g.stats.goldEarned, date := dateStr }
  { g with bestRuns := saveBestRunStore g.bestRuns runData }

/-- `GameManager.loadBestRuns`. -/
def GM.loadBestRuns (g : GM) : List RunData := g.bestRuns

/-- `GameManager.handlePlayerDefeat`: enter `gameOver`, persist the run,
log the defeat; dice assignments and `hasRolled` are left as they were. -/
def GM.handlePlayerDefeat (g : GM) (combatLog : List LogEntry) (rng : Rng) :
    GM × TurnResult :=
  let g := { g with gameState := "gameOver" }
  let g := g.saveBestRun rng.dateStr
  let combatLog := combatLog ++ [logE "enemy" ("You have been defeated...")]
  (g, { success := true, playerDefeated := true, combatLog := combatLog,
        statsOut := some g.stats })

/-- `GameManager.handleEnemyDefeat`: award (possibly multiplied) gold,
advance the round, and branch to the merchant every third round, else spawn
the next scaled enemy. -/
def GM.handleEnemyDefeat (g : GM) (combatLog : List LogEntry) (rng : Rng) :
    GM × TurnResult :=
  let stats := { g.stats with enemiesDefeated := g.stats.enemiesDefeated + 1 }
  let goldReward := g.enemy.goldReward
  let goldReward :=
    match g.player.effects.find? (fun e => e.name == "Gold Magnet") with
    | some goldMagnet =>
      if truthyRat goldMagnet.goldMultiplier then
        Int.floor ((goldReward : ℚ) * goldMagnet.goldMultiplier.getD 0)
      else goldReward
    | none => goldReward
  let player := g.player.addGold goldReward
  let stats := { stats with goldEarned := stats.goldEarned + goldReward }
  let combatLog := combatLog ++
    [logE "special" (g.enemy.name ++ " defeated! +" ++ toString goldReward ++ " gold")]
  let currentRound := g.currentRound + 1
  let stats := { stats with highestRound := max stats.highestRound currentRound }
  if currentRound % 3 == 0 then
    let count := g.merchantEncounterCount + 1
    let g := { g with player := player.resetRerolls, stats := stats,
                      currentRound := currentRound, gameState := "merchant",
                      merchantEncounterCount := count,
                      merchant := some (MerchantFactory.createMerchant count),
                      hasRolled := false, assignedAttack := none,
                      assignedDefense := none, assignedSpecial := [] }
    (g, { success := true, enemyDefeated := true,
          combatLog := combatLog ++ [logE "info" ("A traveling merchant appears!")],
          nextState := some g.gameState })
  else
    let (newEnemy, newBehavior) := EnemyFactory.createEnemy currentRound rng.enemyChoice
    let g := { g with player := player.resetRerolls, stats := stats,
                      currentRound := currentRound, enemy := newEnemy,
                      enemyBehavior := some newBehavior,
                      hasRolled := false, assignedAttack := none,
                      assignedDefense := none, assignedSpecial := [] }
    (g, { success := true, enemyDefeated := true, combatLog := combatLog,
          nextState := some g.gameState })

end DDT

namespace DDT

/-- `GameManager.executeTurn` (GameManager.js lines 171-382), resolution
order as in the source: slot values, bonuses, passive, special, crit roll,
player hit, enemy-defeat check, enemy effect tick, enemy action (attack
with mitigation / shield / dodge / divine shield, poison-burn payload, life
steal; or heal; or defend), player effect tick and regeneration,
player-defeat check, and finally the per-turn resets. The only
precondition is `canExecuteTurn`; the game state is not checked. -/
def GM.executeTurn (g : GM) (rng : Rng) : GM × TurnResult :=
  if !g.canExecuteTurn then
    (g, { success := false,
          message := some "Assign at least one die before executing turn." })
  else
    let attackValue : Int :=
      match g.assignedAttack with
      | some die => if die.getFaceType == some "attack" then die.getFaceValue else 0
      | none => 0
    let defenseValue : Int :=
      match g.assignedDefense with
      | some die => if die.getFaceType == some "defense" then die.getFaceValue else 0
      | none => 0
    let attackValue := attackValue + g.player.getTotalAttackBonus
    let defenseValue := defenseValue + g.player.getTotalDefenseBonus
    let combatContext : CombatContext :=
      { attackValue := attackValue, defenseValue := defenseValue,
        specialDice := g.assignedSpecial, round := g.currentRound }
    let (player, passiveResult) := g.player.applyPassiveAbility combatContext rng
    let combatLog : List LogEntry :=
      match passiveResult.message with
      | some m => [logE "player" (m)]
      | none => []
    let attackValue := attackValue + passiveResult.bonusDamage.getD 0
    let defenseValue := defenseValue + passiveResult.bonusDefense.getD 0
    let specialStep :
        Player × Int × Int × EnemyData × List LogEntry × Bool :=
      if g.assignedSpecial.length > 0 then
        let (player', specialResult) := player.activateSpecial combatContext rng
        if specialResult.success.getD false then
          let specialLog : List LogEntry :=
            [logE "special" (specialResult.message.getD "")]
          let av := attackValue + specialResult.bonusDamage.getD 0
          let av := if truthyInt specialResult.damage then specialResult.damage.getD 0 else av
          let dv := defenseValue + specialResult.bonusDefense.getD 0
          let av := if specialResult.isCrit then
              Int.floor ((av : ℚ) * player'.critMultiplier)
            else av
          let enemy :=
            match specialResult.applyEffect with
            | some eff => g.enemy.addEffect eff
            | none => g.enemy
          let specialLog := if specialResult.skipEnemyTurn then
              specialLog ++ [logE "info" ("Enemy is frozen in time!")]
            else specialLog
          (player', av, dv, enemy, specialLog, true)
        else (player', attackValue, defenseValue, g.enemy, [], false)
      else (player, attackValue, defenseValue, g.enemy, [], false)
    let (player, attackValue, defenseValue, enemy, specialLog, specialActivated) :=
      specialStep
    let combatLog := combatLog ++ specialLog
    let (attackValue, combatLog) :=
      if rng.critRoll < player.critChance && attackValue > 0 then
        (Int.floor ((attackValue : ℚ) * player.critMultiplier),
         combatLog ++ [logE "special" ("CRITICAL HIT!")])
      else (attackValue, combatLog)
    let (enemy, stats, combatLog) :=
      if attackValue > 0 then
        let (enemy', damageDealt) := enemy.takeDamage attackValue
        let log := combatLog ++
          [logE "player" ("You deal " ++ toString damageDealt ++ " damage!")]
        let stats := { g.stats with
          totalDamageDealt := g.stats.totalDamageDealt + damageDealt }
        let log :=
          match player.effects.find? (fun e => e.name == "Thorns") with
          | some thornEffect =>
            if truthyRat thornEffect.reflectDamage then
              let reflected :=
                Int.floor ((damageDealt : ℚ) * thornEffect.reflectDamage.getD 0)
              log ++ [logE "player" ("Thorns reflect " ++ toString reflected ++ " damage!")]
            else log
          | none => log
        (enemy', stats, log)
      else (enemy, g.stats, combatLog ++ [logE "info" ("You defend.")])
    if !enemy.isAlive then
      GM.handleEnemyDefeat { g with player := player, enemy := enemy, stats := stats }
        combatLog rng
    else
      let enemy := enemy.updateEffects
      let skipEnemyTurn := g.assignedSpecial.length > 0 &&
        player.className == "Time Weaver" && specialActivated
      let enemyPhase :
          Player × EnemyData × Stats × List LogEntry × Option EnemyAction :=
        if !skipEnemyTurn then
          let (enemy, enemyAction) := enemy.executeAction g.enemyBehavior rng.behaviorRoll
          if enemyAction.type == "attack" then
            let enemyDamage := enemyAction.value
            let mitigatedDamage := max 0 (enemyDamage - defenseValue)
            let mitigatedDamage :=
              match player.effects.find? (fun e => e.name == "Shield of Faith") with
              | some shieldEffect =>
                if truthyInt shieldEffect.blockDamage then
                  max 0 (mitigatedDamage - shieldEffect.blockDamage.getD 0)
                else mitigatedDamage
              | none => mitigatedDamage
            let (mitigatedDamage, combatLog) :=
              match player.effects.find? (fun e => e.name == "Evasion") with
              | some evasionEffect =>
                if truthyRat evasionEffect.dodgeChance then
                  if rng.dodgeRoll < evasionEffect.dodgeChance.getD 0 then
                    (0, combatLog ++ [logE "player" ("You dodged the attack!")])
                  else (mitigatedDamage, combatLog)
                else (mitigatedDamage, combatLog)
              | none => (mitigatedDamage, combatLog)
            let (player, stats, combatLog) :=
              if mitigatedDamage > 0 then
                let (player, mitigatedDamage, combatLog) :=
                  if player.specialCounters.divineShield > 0 then
                    let absorbed := min mitigatedDamage player.specialCounters.divineShield
                    ({ player with specialCounters := { player.specialCounters with
                         divineShield := player.specialCounters.divineShield - absorbed } },
                     mitigatedDamage - absorbed,
                     combatLog ++
                       [logE "player" ("Divine Shield absorbs " ++ toString absorbed ++ " damage!")])
                  else (player, mitigatedDamage, combatLog)
                let (player, actualDamage) := player.takeDamage mitigatedDamage
                let stats := { stats with
                  totalDamageTaken := stats.totalDamageTaken + actualDamage }
                let actionMessage := enemyAction.message.getD (enemy.name ++ " attacks")
                (player, stats, combatLog ++
                  [logE "enemy" (actionMessage ++ " for " ++ toString actualDamage ++ " damage!")])
              else
                (player, stats, combatLog ++ [logE "player" ("You blocked all damage!")])
            let (player, combatLog) :=
              if truthyInt enemyAction.poison then
                (player.addEffect { name := "Poison", damage := enemyAction.poison,
                                    duration := some 3 },
                 combatLog ++ [logE "enemy" ("You are poisoned! (" ++
                   toString (enemyAction.poison.getD 0) ++ " damage/turn)")])
              else (player, combatLog)
            let (player, combatLog) :=
              if truthyInt enemyAction.burn then
                (player.addEffect { name := "Burn", damage := enemyAction.burn,
                                    duration := some 3 },
                 combatLog ++ [logE "enemy" ("You are burning! (" ++
                   toString (enemyAction.burn.getD 0) ++ " damage/turn)")])
              else (player, combatLog)
            let (enemy, combatLog) :=
              if truthyRat enemyAction.lifeSteal then
                let healAmount :=
                  Int.floor ((enemyAction.value : ℚ) * enemyAction.lifeSteal.getD 0)
                ((enemy.heal healAmount).1,
                 combatLog ++
                   [logE "enemy" (enemy.name ++ " heals " ++ toString healAmount ++ " HP!")])
              else (enemy, combatLog)
            (player, enemy, stats, combatLog, some enemyAction)
          else if enemyAction.type == "heal" then
            let (enemy, healAmount) := enemy.heal enemyAction.value
            let actionMessage := enemyAction.message.getD (enemy.name ++ " heals")
            (player, enemy, stats,
             combatLog ++
               [logE "enemy" (actionMessage ++ " for " ++ toString healAmount ++ " HP!")],
             some enemyAction)
          else if enemyAction.type == "defend" then
            let actionMessage := enemyAction.message.getD (enemy.name ++ " defends")
            (player, enemy, stats, combatLog ++ [logE "enemy" (actionMessage)],
             some enemyAction)
          else (player, enemy, stats, combatLog, some enemyAction)
        else (player, enemy, stats, combatLog, none)
      let (player, enemy, stats, combatLog, enemyActionTaken) := enemyPhase
      let player := player.updateEffects
      let (player, combatLog) :=
        match player.effects.find?
            (fun e => e.name == "Regeneration" && truthyInt e.healPerTurn) with
        | some regenEffect =>
          let (player', healAmount) := player.heal (regenEffect.healPerTurn.getD 0)
          if healAmount > 0 then
            (player', combatLog ++
              [logE "player" ("Regeneration heals " ++ toString healAmount ++ " HP!")])
          else (player', combatLog)
        | none => (player, combatLog)
      if !player.isAlive then
        GM.handlePlayerDefeat { g with player := player, enemy := enemy, stats := stats }
          combatLog rng
      else
        let g := { g with player := player.resetRerolls, enemy := enemy,
                          stats := stats, hasRolled := false,
                          assignedAttack := none, assignedDefense := none,
                          assignedSpecial := [] }
        (g, { success := true, combatLog := combatLog,
              playerHP := some player.currentHP, enemyHP := some enemy.currentHP,
              enemyAction := enemyActionTaken })

end DDT

namespace DDT

/-- The actor HP invariant of the spec, player side. -/
def HPInvP (p : Player) : Prop := 0 ≤ p.currentHP ∧ p.currentHP ≤ p.maxHP

/-- The actor HP invariant of the spec, enemy side. -/
def HPInvE (e : EnemyData) : Prop := 0 ≤ e.currentHP ∧ e.currentHP ≤ e.maxHP

theorem Player.playerTakeDamage_inv (p : Player) (x : Int) (h : HPInvP p) :
    HPInvP (p.takeDamage x).1 := by
  simp only [HPInvP, Player.takeDamage] at h ⊢
  omega

theorem Player.playerHeal_inv (p : Player) (x : Int) (hx : 0 ≤ x) (h : HPInvP p) :
    HPInvP (p.heal x).1 := by
  simp only [HPInvP, Player.heal] at h ⊢
  omega

theorem EnemyData.enemyTakeDamage_inv (e : EnemyData) (x : Int) (h : HPInvE e) :
    HPInvE (e.takeDamage x).1 := by
  simp only [HPInvE, EnemyData.takeDamage] at h ⊢
  omega

theorem EnemyData.enemyHeal_inv (e : EnemyData) (x : Int) (hx : 0 ≤ x) (h : HPInvE e) :
    HPInvE (e.heal x).1 := by
  simp only [HPInvE, EnemyData.heal] at h ⊢
  omega

theorem countSymbol_nonneg (dice : List Die) (s : String) : 0 ≤ countSymbol dice s :=
  Int.natCast_nonneg _

end DDT

namespace DDT

theorem Player.bladeDancerPassive_inv (p : Player) (ctx : CombatContext)
    (h : HPInvP p) : HPInvP (p.bladeDancerPassive ctx).1 := by
  simp only [Player.bladeDancerPassive]
  split_ifs <;> exact h

theorem Player.geomancerPassive_inv (p : Player) (ctx : CombatContext)
    (h : HPInvP p) : HPInvP (p.geomancerPassive ctx).1 := by
  simp only [Player.geomancerPassive]
  split_ifs <;> exact h

theorem Player.shadowPriestPassive_inv (p : Player) (ctx : CombatContext)
    (h : HPInvP p) : HPInvP (p.shadowPriestPassive ctx).1 := by
  simp only [Player.shadowPriestPassive]
  split_ifs <;> exact h

theorem Player.pyromanticPassive_inv (p : Player) (ctx : CombatContext)
    (h : HPInvP p) : HPInvP (p.pyromanticPassive ctx).1 := by
  simp only [Player.pyromanticPassive]
  split_ifs <;> exact h

theorem Player.frostWeaverPassive_inv (p : Player) (ctx : CombatContext)
    (h : HPInvP p) : HPInvP (p.frostWeaverPassive ctx).1 := by
  simp only [Player.frostWeaverPassive]
  split_ifs <;> exact h

theorem Player.stormCallerPassive_inv (p : Player) (ctx : CombatContext)
    (h : HPInvP p) : HPInvP (p.stormCallerPassive ctx).1 := by
  simp only [Player.stormCallerPassive]
  split_ifs <;> exact h

theorem Player.natureShamanPassive_inv (p : Player) (ctx : CombatContext)
    (h : HPInvP p) : HPInvP (p.natureShamanPassive ctx).1 := by
  simp only [Player.natureShamanPassive]
  split_ifs
  · exact Player.playerHeal_inv _ _
      (mul_nonneg (countSymbol_nonneg _ _) (by norm_num)) h
  · exact h

theorem Player.bloodKnightPassive_inv (p : Player) (ctx : CombatContext)
    (h : HPInvP p) : HPInvP (p.bloodKnightPassive ctx).1 := by
  simp only [Player.bloodKnightPassive]
  split_ifs with hguard
  · simp only [Bool.and_eq_true, decide_eq_true_eq] at hguard
    refine Player.playerHeal_inv _ _ (Int.floor_nonneg.mpr ?_) h
    have h1 : (0 : ℚ) ≤ (ctx.attackValue : ℚ) := by exact_mod_cast le_of_lt hguard.2
    have h2 : (0 : ℚ) ≤ (countSymbol ctx.specialDice "blood" : ℚ) := by
      exact_mod_cast countSymbol_nonneg ctx.specialDice "blood"
    positivity
  · exact h

theorem Player.holyPaladinPassive_inv (p : Player) (ctx : CombatContext)
    (h : HPInvP p) : HPInvP (p.holyPaladinPassive ctx).1 := by
  simp only [Player.holyPaladinPassive]
  split_ifs <;> exact h

theorem Player.chaosMagePassive_inv (p : Player) (ctx : CombatContext) (rng : Rng)
    (h : HPInvP p) : HPInvP (p.chaosMagePassive ctx rng).1 := by
  simp only [Player.chaosMagePassive]
  split_ifs
  · exact Player.playerTakeDamage_inv _ _ h
  · exact h
  · exact h

theorem Player.timeWeaverPassive_inv (p : Player) (ctx : CombatContext)
    (h : HPInvP p) : HPInvP (p.timeWeaverPassive ctx).1 := by
  simp only [Player.timeWeaverPassive]
  split_ifs <;> exact h

theorem Player.spiritSummonerPassive_inv (p : Player) (ctx : CombatContext)
    (h : HPInvP p) : HPInvP (p.spiritSummonerPassive ctx).1 := by
  simp only [Player.spiritSummonerPassive]
  split_ifs <;> exact h

set_option maxHeartbeats 1000000 in
theorem Player.applyPassiveAbility_inv (p : Player) (ctx : CombatContext)
    (rng : Rng) (h : HPInvP p) : HPInvP (p.applyPassiveAbility ctx rng).1 := by
  unfold Player.applyPassiveAbility
  by_cases h1 : (p.className == "Blade Dancer") = true
  case pos => rw [if_pos h1]; exact p.bladeDancerPassive_inv ctx h
  rw [if_neg h1]
  by_cases h2 : (p.className == "Geomancer") = true
  case pos => rw [if_pos h2]; exact p.geomancerPassive_inv ctx h
  rw [if_neg h2]
  by_cases h3 : (p.className == "Shadow Priest") = true
  case pos => rw [if_pos h3]; exact p.shadowPriestPassive_inv ctx h
  rw [if_neg h3]
  by_cases h4 : (p.className == "Pyromantic") = true
  case pos => rw [if_pos h4]; exact p.pyromanticPassive_inv ctx h
  rw [if_neg h4]
  by_cases h5 : (p.className == "Frost Weaver") = true
  case pos => rw [if_pos h5]; exact p.frostWeaverPassive_inv ctx h
  rw [if_neg h5]
  by_cases h6 : (p.className == "Storm Caller") = true
  case pos => rw [if_pos h6]; exact p.stormCallerPassive_inv ctx h
  rw [if_neg h6]
  by_cases h7 : (p.className == "Nature Shaman") = true
  case pos => rw [if_pos h7]; exact p.natureShamanPassive_inv ctx h
  rw [if_neg h7]
  by_cases h8 : (p.className == "Blood Knight") = true
  case pos => rw [if_pos h8]; exact p.bloodKnightPassive_inv ctx h
  rw [if_neg h8]
  by_cases h9 : (p.className == "Holy Paladin") = true
  case pos => rw [if_pos h9]; exact p.holyPaladinPassive_inv ctx h
  rw [if_neg h9]
  by_cases h10 : (p.className == "Chaos Mage") = true
  case pos => rw [if_pos h10]; exact p.chaosMagePassive_inv ctx rng h
  rw [if_neg h10]
  by_cases h11 : (p.className == "Time Weaver") = true
  case pos => rw [if_pos h11]; exact p.timeWeaverPassive_inv ctx h
  rw [if_neg h11]
  by_cases h12 : (p.className == "Spirit Summoner") = true
  case pos => rw [if_pos h12]; exact p.spiritSummonerPassive_inv ctx h
  rw [if_neg h12]
  exact h

end DDT

namespace DDT

theorem Player.bladeDancerSpecial_inv (p : Player) (ctx : CombatContext)
    (h : HPInvP p) : HPInvP (p.bladeDancerSpecial ctx).1 := by
  simp only [Player.bladeDancerSpecial]
  split_ifs <;> exact h

theorem Player.geomancerSpecial_inv (p : Player) (ctx : CombatContext)
    (h : HPInvP p) : HPInvP (p.geomancerSpecial ctx).1 := by
  simp only [Player.geomancerSpecial]
  split_ifs <;> exact h

theorem Player.shadowPriestSpecial_inv (p : Player) (ctx : CombatContext)
    (h : HPInvP p) : HPInvP (p.shadowPriestSpecial ctx).1 := by
  simp only [Player.shadowPriestSpecial]
  split_ifs
  · exact Player.playerTakeDamage_inv _ _ h
  · exact h

theorem Player.pyromanticSpecial_inv (p : Player) (ctx : CombatContext)
    (h : HPInvP p) : HPInvP (p.pyromanticSpecial ctx).1 := by
  simp only [Player.pyromanticSpecial]
  split_ifs <;> exact h

theorem Player.frostWeaverSpecial_inv (p : Player) (ctx : CombatContext)
    (h : HPInvP p) : HPInvP (p.frostWeaverSpecial ctx).1 := by
  simp only [Player.frostWeaverSpecial]
  split_ifs <;> exact h

theorem Player.stormCallerSpecial_inv (p : Player) (ctx : CombatContext)
    (h : HPInvP p) : HPInvP (p.stormCallerSpecial ctx).1 := by
  simp only [Player.stormCallerSpecial]
  split_ifs <;> exact h

theorem Player.natureShamanSpecial_inv (p : Player) (ctx : CombatContext)
    (h : HPInvP p) : HPInvP (p.natureShamanSpecial ctx).1 := by
  simp only [Player.natureShamanSpecial]
  split_ifs
  · exact Player.playerHeal_inv _ _ (by norm_num) h
  · exact h

theorem Player.bloodKnightSpecial_inv (p : Player) (ctx : CombatContext)
    (h : HPInvP p) : HPInvP (p.bloodKnightSpecial ctx).1 := by
  simp only [Player.bloodKnightSpecial]
  split_ifs
  · exact Player.playerTakeDamage_inv _ _ h
  · exact h

theorem Player.holyPaladinSpecial_inv (p : Player) (ctx : CombatContext)
    (h : HPInvP p) : HPInvP (p.holyPaladinSpecial ctx).1 := by
  simp only [Player.holyPaladinSpecial]
  split_ifs
  · exact Player.playerHeal_inv _ _ (by norm_num) h
  · exact h

theorem Player.chaosMageSpecial_inv (p : Player) (ctx : CombatContext) (rng : Rng)
    (h : HPInvP p) : HPInvP (p.chaosMageSpecial ctx rng).1 := by
  simp only [Player.chaosMageSpecial]
  split_ifs <;> exact h

theorem Player.timeWeaverSpecial_inv (p : Player) (ctx : CombatContext)
    (h : HPInvP p) : HPInvP (p.timeWeaverSpecial ctx).1 := by
  simp only [Player.timeWeaverSpecial]
  split_ifs <;> exact h

theorem Player.spiritSummonerSpecial_inv (p : Player) (ctx : CombatContext)
    (h : HPInvP p) : HPInvP (p.spiritSummonerSpecial ctx).1 := by
  simp only [Player.spiritSummonerSpecial]
  split_ifs <;> exact h

theorem Player.activateSpecial_inv (p : Player) (ctx : CombatContext)
    (rng : Rng) (h : HPInvP p) : HPInvP (p.activateSpecial ctx rng).1 := by
  unfold Player.activateSpecial
  by_cases h1 : (p.className == "Blade Dancer") = true
  case pos => rw [if_pos h1]; exact p.bladeDancerSpecial_inv ctx h
  rw [if_neg h1]
  by_cases h2 : (p.className == "Geomancer") = true
  case pos => rw [if_pos h2]; exact p.geomancerSpecial_inv ctx h
  rw [if_neg h2]
  by_cases h3 : (p.className == "Shadow Priest") = true
  case pos => rw [if_pos h3]; exact p.shadowPriestSpecial_inv ctx h
  rw [if_neg h3]
  by_cases h4 : (p.className == "Pyromantic") = true
  case pos => rw [if_pos h4]; exact p.pyromanticSpecial_inv ctx h
  rw [if_neg h4]
  by_cases h5 : (p.className == "Frost Weaver") = true
  case pos => rw [if_pos h5]; exact p.frostWeaverSpecial_inv ctx h
  rw [if_neg h5]
  by_cases h6 : (p.className == "Storm Caller") = true
  case pos => rw [if_pos h6]; exact p.stormCallerSpecial_inv ctx h
  rw [if_neg h6]
  by_cases h7 : (p.className == "Nature Shaman") = true
  case pos => rw [if_pos h7]; exact p.natureShamanSpecial_inv ctx h
  rw [if_neg h7]
  by_cases h8 : (p.className == "Blood Knight") = true
  case pos => rw [if_pos h8]; exact p.bloodKnightSpecial_inv ctx h
  rw [if_neg h8]
  by_cases h9 : (p.className == "Holy Paladin") = true
  case pos => rw [if_pos h9]; exact p.holyPaladinSpecial_inv ctx h
  rw [if_neg h9]
  by_cases h10 : (p.className == "Chaos Mage") = true
  case pos => rw [if_pos h10]; exact p.chaosMageSpecial_inv ctx rng h
  rw [if_neg h10]
  by_cases h11 : (p.className == "Time Weaver") = true
  case pos => rw [if_pos h11]; exact p.timeWeaverSpecial_inv ctx h
  rw [if_neg h11]
  by_cases h12 : (p.className == "Spirit Summoner") = true
  case pos => rw [if_pos h12]; exact p.spiritSummonerSpecial_inv ctx h
  rw [if_neg h12]
  exact h

end DDT

namespace DDT

theorem Item.apply_inv (i : Item) (p : Player) (h : HPInvP p)
    (hbp : i = Item.bloodPact → 5 ≤ p.maxHP) : HPInvP (i.apply p) := by
  cases i
  case healthPotion => exact Player.playerHeal_inv _ _ (by norm_num) h
  case greaterHealthPotion => exact Player.playerHeal_inv _ _ (by norm_num) h
  case maxHealthUpgrade =>
    simp only [Item.apply, HPInvP] at h ⊢
    omega
  case bloodPact =>
    have h5 := hbp rfl
    simp only [Item.apply, HPInvP] at h ⊢
    omega
  all_goals exact h

theorem Player.playerUpdateEffects_inv (p : Player) (h : HPInvP p) :
    HPInvP p.updateEffects := h

theorem foldl_dot_inv (l : List Effect) (e : EnemyData)
    (hheal : ∀ eff ∈ l, 0 ≤ eff.healing.getD 0) (h : HPInvE e) :
    HPInvE (l.foldl (fun acc eff =>
      let acc := if truthyInt eff.damage then (acc.takeDamage (eff.damage.getD 0)).1
        else acc
      if truthyInt eff.healing then (acc.heal (eff.healing.getD 0)).1 else acc) e) := by
  induction l generalizing e with
  | nil => exact h
  | cons eff rest ih =>
    simp only [List.foldl_cons]
    apply ih
    · intro x hx
      exact hheal x (List.mem_cons_of_mem _ hx)
    · set acc1 := if truthyInt eff.damage then
        (e.takeDamage (eff.damage.getD 0)).1 else e with hacc
      have h1 : HPInvE acc1 := by
        rw [hacc]
        split_ifs
        · exact EnemyData.enemyTakeDamage_inv _ _ h
        · exact h
      show HPInvE (if truthyInt eff.healing then (acc1.heal (eff.healing.getD 0)).1
        else acc1)
      split_ifs
      · exact EnemyData.enemyHeal_inv _ _ (hheal eff (List.mem_cons_self _ _)) h1
      · exact h1

theorem EnemyData.enemyUpdateEffects_inv (e : EnemyData)
    (hheal : ∀ eff ∈ e.effects, 0 ≤ eff.healing.getD 0) (h : HPInvE e) :
    HPInvE e.updateEffects :=
  foldl_dot_inv e.effects e hheal h

theorem Player.playerTakeDamage_neg (p : Player) (x : Int) (hx : x < 0) :
    p.takeDamage x = p.takeDamage 0 := by
  simp [Player.takeDamage, show max 0 x = 0 from by omega]

theorem EnemyData.enemyTakeDamage_neg (e : EnemyData) (x : Int) (hx : x < 0)
    (hd : 0 ≤ e.defense) : e.takeDamage x = e.takeDamage 0 := by
  have h1 : max 0 (x - e.defense) = 0 := by omega
  have h2 : max 0 (0 - e.defense) = 0 := by omega
  simp only [EnemyData.takeDamage]
  rw [h1, h2]

end DDT

namespace DDT

/-- C3: for every nonnegative raw damage amount dealt to an enemy, the
take-damage primitive reduces HP by `max 0 (amount - defense)`, floored so
HP never drops below 0; with defense 5 and raw amount 12 exactly 7 HP are
lost, and an enemy at 3 HP ends at exactly 0. -/
theorem C3_enemy_damage_mitigation :
    (∀ (e : EnemyData) (x : Int), 0 ≤ x →
      (e.takeDamage x).2 = max 0 (x - e.defense) ∧
      (e.takeDamage x).1.currentHP = max 0 (e.currentHP - max 0 (x - e.defense))) ∧
    (∀ e : EnemyData, e.defense = 5 → 7 ≤ e.currentHP →
      (e.takeDamage 12).1.currentHP = e.currentHP - 7) ∧
    (∀ e : EnemyData, e.defense = 5 → e.currentHP = 3 →
      (e.takeDamage 12).1.currentHP = 0) := by
  refine ⟨fun e x hx => ⟨rfl, rfl⟩, fun e hd hhp => ?_, fun e hd hhp => ?_⟩
  · simp only [EnemyData.takeDamage, hd]
    omega
  · simp only [EnemyData.takeDamage, hd, hhp]
    omega

/-- C3 witness: a concrete enemy with defense 5 and 30 HP hit for a raw 12
loses exactly 7 HP. -/
theorem C3_witness :
    ((mkEnemy "Goblin" "minion" 30 10 5).takeDamage 12).1.currentHP = 30 - 7 :=
  C3_enemy_damage_mitigation.2.1 (mkEnemy "Goblin" "minion" 30 10 5) rfl
    (by norm_num [mkEnemy])

/-- C10: a damage-over-time tick on an enemy is routed through the
defense-mitigating `takeDamage` primitive, so one tick of a damage-`a`
effect costs `max 0 (a - defense)` HP; an enemy whose defense is at least
`a` takes nothing. -/
theorem C10_enemy_tick_routed_through_defense :
    ∀ (e : EnemyData) (eff : Effect) (a : Int),
      e.effects = [eff] → eff.damage = some a → eff.healing = none →
      0 ≤ a → 0 ≤ e.defense → 0 ≤ e.currentHP →
      (e.updateEffects.currentHP = max 0 (e.currentHP - max 0 (a - e.defense)) ∧
       (a ≤ e.defense → e.updateEffects.currentHP = e.currentHP)) := by
  intro e eff a heff hdmg hheal ha hd hhp
  have hmain : e.updateEffects.currentHP =
      max 0 (e.currentHP - max 0 (a - e.defense)) := by
    unfold EnemyData.updateEffects
    rw [heff]
    simp only [List.foldl_cons, List.foldl_nil, hdmg, hheal]
    by_cases h0 : a = 0
    · subst h0
      simp only [truthyInt, bne_self_eq_false, Bool.false_eq_true, if_false]
      omega
    · simp [truthyInt, EnemyData.takeDamage, h0]
  refine ⟨hmain, fun hle => ?_⟩
  rw [hmain]
  omega

/-- C10 witness: an enemy at 50 HP with defense 3 under a Burn effect of 10
per tick loses exactly 7 HP in one pass. -/
theorem C10_witness :
    ({ mkEnemy "Giant Crab" "minion" 50 8 3 with
        effects := [{ name := "Burn", damage := some 10, duration := some 3 }]
      } : EnemyData).updateEffects.currentHP = 43 := by
  have h := C10_enemy_tick_routed_through_defense
    { mkEnemy "Giant Crab" "minion" 50 8 3 with
      effects := [{ name := "Burn", damage := some 10, duration := some 3 }] }
    { name := "Burn", damage := some 10, duration := some 3 } 10
    rfl rfl rfl (by norm_num) (by norm_num [mkEnemy]) (by norm_num [mkEnemy])
  rw [h.1]
  norm_num [mkEnemy]

/-- C2: contrary to the claim, the player-side effect pass
(`Player.updateEffects`) never applies damage-per-tick or heal-per-tick: a
Poison effect of 3 damage per turn on the player leaves its HP unchanged
and only decrements the duration.  The enemy-side pass does apply the
damage, so the same effect on an enemy with 0 defense costs 3 HP. -/
theorem C2_player_poison_tick_deals_no_damage :
    (Player.updateEffects { className := "Blade Dancer", effects := [{ name := "Poison", damage := some 3, duration := some 3 }] }).currentHP = 100 ∧
    (Player.updateEffects { className := "Blade Dancer", effects := [{ name := "Poison", damage := some 3, duration := some 3 }] }).effects = [{ name := "Poison", damage := some 3, duration := some 2 }] ∧
    (EnemyData.updateEffects { mkEnemy "Goblin" "minion" 100 8 0 with effects := [{ name := "Poison", damage := some 3, duration := some 3 }] }).currentHP = 97 := by
  refine ⟨rfl, by decide, by decide⟩

end DDT

namespace DDT

/-- C4 counterexample: Blood Pact ("Lose 5 max HP") applied to a player
whose max HP has already been worn down to 0 (twenty prior Blood Pact
purchases from the initial 100) drives `currentHP` to -5, breaking the
`0 ≤ currentHP ≤ maxHP` invariant that item application was claimed to
preserve. -/
theorem C4_counterexample_bloodPact_breaks_invariant :
    HPInvP { className := "Blood Knight", maxHP := 0, currentHP := 0 } ∧
    ¬ HPInvP (Item.bloodPact.apply { className := "Blood Knight", maxHP := 0, currentHP := 0 }) := by
  constructor
  · exact ⟨le_refl 0, le_refl 0⟩
  · intro hinv
    obtain ⟨h1, -⟩ := hinv
    simp only [Item.apply] at h1
    omega

/-- C4 (amended): `0 ≤ currentHP ≤ maxHP` is preserved by every HP-mutating
operation of the engine — take-damage with any amount, heal with the
nonnegative amounts the engine passes, both effect-tick passes (the enemy
pass under the nonnegative heal-per-tick fields the engine creates), every
class passive and special (including their self-damage and self-heal), and
item application — except that Blood Pact needs `5 ≤ maxHP` before the
purchase; and take-damage with a negative amount behaves exactly as
amount 0. -/
theorem C4_hp_invariant_preservation :
    (∀ (p : Player) (x : Int), HPInvP p → HPInvP (p.takeDamage x).1) ∧
    (∀ (p : Player) (x : Int), 0 ≤ x → HPInvP p → HPInvP (p.heal x).1) ∧
    (∀ p : Player, HPInvP p → HPInvP p.updateEffects) ∧
    (∀ (p : Player) (ctx : CombatContext) (rng : Rng), HPInvP p →
      HPInvP (p.applyPassiveAbility ctx rng).1) ∧
    (∀ (p : Player) (ctx : CombatContext) (rng : Rng), HPInvP p →
      HPInvP (p.activateSpecial ctx rng).1) ∧
    (∀ (i : Item) (p : Player), HPInvP p → (i = Item.bloodPact → 5 ≤ p.maxHP) →
      HPInvP (i.apply p)) ∧
    (∀ (e : EnemyData) (x : Int), HPInvE e → HPInvE (e.takeDamage x).1) ∧
    (∀ (e : EnemyData) (x : Int), 0 ≤ x → HPInvE e → HPInvE (e.heal x).1) ∧
    (∀ e : EnemyData, (∀ eff ∈ e.effects, 0 ≤ eff.healing.getD 0) → HPInvE e →
      HPInvE e.updateEffects) ∧
    (∀ (p : Player) (x : Int), x < 0 → p.takeDamage x = p.takeDamage 0) ∧
    (∀ (e : EnemyData) (x : Int), x < 0 → 0 ≤ e.defense →
      e.takeDamage x = e.takeDamage 0) :=
  ⟨fun p x h => p.playerTakeDamage_inv x h,
   fun p x hx h => p.playerHeal_inv x hx h,
   fun p h => p.playerUpdateEffects_inv h,
   fun p ctx rng h => p.applyPassiveAbility_inv ctx rng h,
   fun p ctx rng h => p.activateSpecial_inv ctx rng h,
   fun i p h hbp => i.apply_inv p h hbp,
   fun e x h => e.enemyTakeDamage_inv x h,
   fun e x hx h => e.enemyHeal_inv x hx h,
   fun e hheal h => e.enemyUpdateEffects_inv hheal h,
   fun p x hx => p.playerTakeDamage_neg x hx,
   fun e x hx hd => e.enemyTakeDamage_neg x hx hd⟩

/-- C4 witness: the amended theorem applied at concrete inputs — a fresh
Nature Shaman healed for 30 keeps the invariant, and a fresh enemy hit by a
negative amount is hit exactly as by 0. -/
theorem C4_witness :
    ((0 : Int) ≤ 30 ∧ HPInvP ((Player.heal { className := "Nature Shaman" } 30).1)) ∧
    ((-4 : Int) < 0 ∧ (mkEnemy "Goblin" "minion" 30 8 0).takeDamage (-4)
      = (mkEnemy "Goblin" "minion" 30 8 0).takeDamage 0) := by
  constructor
  · exact ⟨by norm_num,
      C4_hp_invariant_preservation.2.1 { className := "Nature Shaman" } 30
        (by norm_num) ⟨by norm_num, by norm_num⟩⟩
  · exact ⟨by norm_num,
      C4_hp_invariant_preservation.2.2.2.2.2.2.2.2.2.2 (mkEnemy "Goblin" "minion" 30 8 0)
        (-4) (by norm_num) (by norm_num [mkEnemy])⟩

end DDT

namespace DDT

/-- The merchant-variant selection exactly as the claim words it: Discount
on multiples of 6, BlackMarket on multiples of 9, Mysterious on multiples
of 12, otherwise Normal, conflicts resolved in the enumerated order 6, 9,
12.  Stated for comparison against `MerchantFactory.createMerchant`. -/
def claimMerchantVariant (n : Int) : MerchantKind :=
  if n % 6 == 0 && n > 0 then .discount
  else if n % 9 == 0 && n > 0 then .blackMarket
  else if n % 12 == 0 && n > 0 then .mysterious
  else .normal

/-- C5 counterexample: at the 18th merchant encounter the code creates a
BlackMarket merchant (it checks the modulus 9 first), while the claim's
6-first order yields a Discount merchant. -/
theorem C5_counterexample_encounter18 :
    MerchantFactory.createMerchant 18 = MerchantKind.blackMarket ∧
    claimMerchantVariant 18 = MerchantKind.discount ∧
    MerchantFactory.createMerchant 18 ≠ claimMerchantVariant 18 := by
  refine ⟨rfl, rfl, ?_⟩
  decide

/-- C5 (amended): the code checks the moduli in the order 9, 6, 12, each
guarded by `n > 0`: BlackMarket iff 9 divides n, else Discount iff 6
divides n, and the Mysterious branch (12) is unreachable because every
multiple of 12 is a multiple of 6; everything else is a Normal merchant. -/
theorem C5_merchant_variant_selection :
    ∀ n : Int, 1 ≤ n →
      (MerchantFactory.createMerchant n = MerchantKind.blackMarket ↔ n % 9 = 0) ∧
      (MerchantFactory.createMerchant n = MerchantKind.discount ↔
        (n % 6 = 0 ∧ n % 9 ≠ 0)) ∧
      MerchantFactory.createMerchant n ≠ MerchantKind.mysterious ∧
      (MerchantFactory.createMerchant n = MerchantKind.normal ↔
        (n % 6 ≠ 0 ∧ n % 9 ≠ 0)) := by
  intro n hn
  have hpos : (decide (n > 0)) = true := by simp; omega
  unfold MerchantFactory.createMerchant
  by_cases h9 : n % 9 = 0
  · simp [h9, hpos]
  · by_cases h6 : n % 6 = 0
    · simp [h9, h6, hpos]
    · have h12 : ¬ n % 12 = 0 := by omega
      simp [h9, h6, h12, hpos]

/-- C5 witness: the amended selection rule evaluated at encounters 18, 12
and 7. -/
theorem C5_witness :
    MerchantFactory.createMerchant 18 = MerchantKind.blackMarket ∧
    MerchantFactory.createMerchant 12 = MerchantKind.discount ∧
    MerchantFactory.createMerchant 7 = MerchantKind.normal :=
  ⟨(C5_merchant_variant_selection 18 (by norm_num)).1.mpr (by norm_num),
   (C5_merchant_variant_selection 12 (by norm_num)).2.1.mpr (by norm_num),
   (C5_merchant_variant_selection 7 (by norm_num)).2.2.2.mpr (by norm_num)⟩

end DDT

namespace DDT

theorem mem_insertByRoundDesc (z x : RunData) :
    ∀ l : List RunData, z ∈ insertByRoundDesc x l ↔ z = x ∨ z ∈ l := by
  intro l
  induction l with
  | nil => simp [insertByRoundDesc]
  | cons y ys ih =>
    unfold insertByRoundDesc
    split_ifs
    · simp only [List.mem_cons, ih]
      tauto
    · simp only [List.mem_cons]

theorem insertByRoundDesc_sorted (x : RunData) :
    ∀ l : List RunData, l.Sorted (fun a b => b.round ≤ a.round) →
      (insertByRoundDesc x l).Sorted (fun a b => b.round ≤ a.round) := by
  intro l
  induction l with
  | nil => simp [insertByRoundDesc]
  | cons y ys ih =>
    intro hs
    rw [List.sorted_cons] at hs
    obtain ⟨hy, hys⟩ := hs
    unfold insertByRoundDesc
    split_ifs with hcmp
    · rw [List.sorted_cons]
      refine ⟨fun z hz => ?_, ih hys⟩
      rcases (mem_insertByRoundDesc z x ys).mp hz with rfl | hzys
      · exact hcmp
      · exact hy z hzys
    · rw [List.sorted_cons]
      refine ⟨fun z hz => ?_, List.sorted_cons.mpr ⟨hy, hys⟩⟩
      rcases List.mem_cons.mp hz with rfl | hzys
      · omega
      · have := hy z hzys
        omega

theorem sortByRoundDesc_sorted (l : List RunData) :
    (sortByRoundDesc l).Sorted (fun a b => b.round ≤ a.round) := by
  have key : ∀ (l acc : List RunData),
      acc.Sorted (fun a b => b.round ≤ a.round) →
      (l.foldl (fun acc x => insertByRoundDesc x acc) acc).Sorted
        (fun a b => b.round ≤ a.round) := by
    intro l
    induction l with
    | nil => intro acc h; exact h
    | cons y ys ih =>
      intro acc h
      exact ih _ (insertByRoundDesc_sorted y acc h)
  exact key l [] (by simp)

theorem countP_insertByRoundDesc (x : RunData) (p : RunData → Bool) :
    ∀ l : List RunData,
      (insertByRoundDesc x l).countP p = (if p x then 1 else 0) + l.countP p := by
  intro l
  induction l with
  | nil => simp [insertByRoundDesc, List.countP_cons]
  | cons y ys ih =>
    unfold insertByRoundDesc
    by_cases hcmp : y.round ≥ x.round
    · rw [if_pos hcmp, List.countP_cons, ih, List.countP_cons]
      omega
    · rw [if_neg hcmp, List.countP_cons, List.countP_cons]
      omega

theorem countP_sortByRoundDesc (p : RunData → Bool) (l : List RunData) :
    (sortByRoundDesc l).countP p = l.countP p := by
  have key : ∀ (l acc : List RunData),
      (l.foldl (fun acc x => insertByRoundDesc x acc) acc).countP p
        = acc.countP p + l.countP p := by
    intro l
    induction l with
    | nil => intro acc; simp
    | cons y ys ih =>
      intro acc
      rw [List.foldl_cons, ih, countP_insertByRoundDesc, List.countP_cons]
      omega
  have h := key l []
  simpa [sortByRoundDesc] using h

theorem mem_take_insertByRoundDesc (x : RunData) :
    ∀ (l : List RunData) (n : Nat),
      l.countP (fun y => decide (x.round ≤ y.round)) < n →
      x ∈ (insertByRoundDesc x l).take n := by
  intro l
  induction l with
  | nil =>
    intro n hn
    match n, hn with
    | n + 1, _ => simp [insertByRoundDesc]
  | cons y ys ih =>
    intro n hn
    unfold insertByRoundDesc
    split_ifs with hcmp
    · rw [List.countP_cons] at hn
      have hd : decide (x.round ≤ y.round) = true := by
        simp only [decide_eq_true_eq]
        omega
      rw [hd, if_pos rfl] at hn
      match n, hn with
      | n + 1, hn =>
        rw [List.take_succ_cons]
        exact List.mem_cons_of_mem _ (ih n (by omega))
    · have hpos : 0 < n := by omega
      match n, hpos with
      | n + 1, _ => simp [List.take_succ_cons]

theorem sortByRoundDesc_append_singleton (l : List RunData) (x : RunData) :
    sortByRoundDesc (l ++ [x]) = insertByRoundDesc x (sortByRoundDesc l) := by
  simp [sortByRoundDesc, List.foldl_append]

/-- C9 counterexample: when the prior store already holds ten runs that all
survived more rounds, the just-saved entry is sorted to the back and
truncated away, so the stored list does not contain it. -/
theorem C9_counterexample_entry_truncated_out :
    ({ className := "Blade Dancer", round := 1 } : RunData) ∉
      saveBestRunStore (List.replicate 10 { round := 100 })
        { className := "Blade Dancer", round := 1 } := by
  decide

/-- C9 (amended): saving then loading the best-runs store yields a list of
length at most 10, sorted descending by rounds-survived; it contains the
just-saved entry whenever fewer than 10 prior entries have at least its
rounds-survived (otherwise the new entry itself can be the one truncated
away). -/
theorem C9_saveBestRun_sorted_truncated :
    ∀ (store : List RunData) (entry : RunData),
      (saveBestRunStore store entry).length ≤ 10 ∧
      (saveBestRunStore store entry).Sorted (fun a b => b.round ≤ a.round) ∧
      (store.countP (fun y => decide (entry.round ≤ y.round)) < 10 →
        entry ∈ saveBestRunStore store entry) := by
  intro store entry
  refine ⟨List.length_take_le _ _, ?_, fun hcount => ?_⟩
  · exact List.Pairwise.sublist (List.take_sublist _ _) (sortByRoundDesc_sorted _)
  · unfold saveBestRunStore
    rw [sortByRoundDesc_append_singleton]
    apply mem_take_insertByRoundDesc
    rw [countP_sortByRoundDesc]
    exact hcount

/-- C9 witness: with three prior entries of round 5, a new round-1 entry is
kept (fewer than 10 outrank it). -/
theorem C9_witness :
    (List.replicate 3 ({ round := 5 } : RunData)).countP
      (fun y => decide ((1 : Int) ≤ y.round)) < 10 ∧
    ({ round := 1 } : RunData) ∈
      saveBestRunStore (List.replicate 3 { round := 5 }) { round := 1 } :=
  ⟨by decide,
   (C9_saveBestRun_sorted_truncated (List.replicate 3 { round := 5 })
     { round := 1 }).2.2 (by decide)⟩

end DDT

namespace DDT

/-- Base (HP, attack) constants of the archetype `createEnemy` selects for
round `r` and roster draw `c`: the enemy catalog's constants in roster
order, stated on the claim's side for comparison with the constructed
enemy. -/
def enemyBaseStats (r : Int) (c : Nat) : Int × Int :=
  if r % 10 == 0 && r > 0 then
    [((150 : Int), (25 : Int)), (140, 28), (120, 22), (180, 20), (130, 26),
     (110, 30), (145, 27), (125, 24), (135, 29), (160, 23)].getD (c % 10) (0, 0)
  else if r % 5 == 0 && r > 0 then
    [((80 : Int), (12 : Int)), (60, 18), (70, 20), (55, 14), (50, 25), (65, 16),
     (60, 17), (75, 19), (85, 18), (70, 15), (55, 20), (90, 16), (75, 22),
     (80, 20), (65, 18)].getD (c % 15) (0, 0)
  else
    [((30 : Int), (8 : Int)), (25, 10), (20, 6), (22, 7), (35, 5), (40, 9),
     (28, 11), (26, 8), (32, 10), (27, 7), (24, 9), (23, 8), (20, 7), (38, 6),
     (33, 8), (25, 9), (29, 10), (27, 11), (26, 9), (24, 10), (30, 12),
     (32, 9), (28, 11), (45, 8), (35, 11)].getD (c % 25) (0, 0)

set_option maxHeartbeats 2000000 in
/-- C7: an enemy constructed for round r has HP and attack equal to
`floor(base * (1 + r*0.15))` for its archetype's base stats, and its
category is Boss exactly when 10 divides r, Elite exactly when 5 divides r
but 10 does not, and Minion otherwise. -/
theorem C7_enemy_scaling_and_category :
    ∀ (r : Int) (c : Nat), 1 ≤ r →
      ((EnemyFactory.createEnemy r c).1.maxHP =
        Int.floor (((enemyBaseStats r c).1 : ℚ) * (1 + (r : ℚ) * (15/100))) ∧
       (EnemyFactory.createEnemy r c).1.attack =
        Int.floor (((enemyBaseStats r c).2 : ℚ) * (1 + (r : ℚ) * (15/100)))) ∧
      ((EnemyFactory.createEnemy r c).1.type = "boss" ↔ r % 10 = 0) ∧
      ((EnemyFactory.createEnemy r c).1.type = "elite" ↔ (r % 5 = 0 ∧ r % 10 ≠ 0)) ∧
      ((EnemyFactory.createEnemy r c).1.type = "minion" ↔ r % 5 ≠ 0) := by
  intro r c hr
  have hrpos : r > 0 := by omega
  by_cases h10 : r % 10 = 0
  · have h5 : r % 5 = 0 := by omega
    have hbossc : (r % 10 == 0 && decide (r > 0)) = true := by simp [h10, hrpos]
    obtain ⟨i, hilt, hieq⟩ : ∃ i, i < 10 ∧ c % 10 = i :=
      ⟨c % 10, Nat.mod_lt _ (by norm_num), rfl⟩
    have hlen : EnemyFactory.bossRoster.length = 10 := by
      simp [EnemyFactory.bossRoster]
    simp only [EnemyFactory.createEnemy, enemyBaseStats, hbossc, if_true,
      EnemyFactory.createBoss, hlen, hieq]
    interval_cases i <;>
      simp [EnemyFactory.bossRoster, EnemyFactory.createDragon,
        EnemyFactory.createDemonKing, EnemyFactory.createAncientLich,
        EnemyFactory.createTitanGolem, EnemyFactory.createVoidLord,
        EnemyFactory.createArchmage, EnemyFactory.createDarkOverlord,
        EnemyFactory.createCelestialBeing, EnemyFactory.createEldritchHorror,
        EnemyFactory.createPrimordialBeast, mkEnemy, EnemyFactory.scaleStats,
        h10, h5]
  · by_cases h5 : r % 5 = 0
    · have hbossc : (r % 10 == 0 && decide (r > 0)) = false := by simp [h10]
      have helitec : (r % 5 == 0 && !(r % 10 == 0 && decide (r > 0)) &&
          decide (r > 0)) = true := by simp [h5, h10, hrpos]
      obtain ⟨i, hilt, hieq⟩ : ∃ i, i < 15 ∧ c % 15 = i :=
        ⟨c % 15, Nat.mod_lt _ (by norm_num), rfl⟩
      have hlen : EnemyFactory.eliteRoster.length = 15 := by
        simp [EnemyFactory.eliteRoster]
      simp only [EnemyFactory.createEnemy, enemyBaseStats, hbossc, helitec,
        Bool.false_eq_true, if_false, if_true, EnemyFactory.createElite,
        hlen, hieq]
      interval_cases i <;>
        simp [EnemyFactory.eliteRoster, EnemyFactory.createStoneGolem,
          EnemyFactory.createDarkMage, EnemyFactory.createBerserker,
          EnemyFactory.createNecromancer, EnemyFactory.createAssassin,
          EnemyFactory.createWarlock, EnemyFactory.createVampire,
          EnemyFactory.createWerewolf, EnemyFactory.createMinotaur,
          EnemyFactory.createHydra, EnemyFactory.createPhoenix,
          EnemyFactory.createFrostGiant, EnemyFactory.createDemonLord,
          EnemyFactory.createDragonKnight, EnemyFactory.createLich,
          mkEnemy, EnemyFactory.scaleStats, h10, h5, hrpos]
    · have hbossc : (r % 10 == 0 && decide (r > 0)) = false := by simp [h10]
      have helitec : (r % 5 == 0 && !(r % 10 == 0 && decide (r > 0)) &&
          decide (r > 0)) = false := by simp [h5]
      obtain ⟨i, hilt, hieq⟩ : ∃ i, i < 25 ∧ c % 25 = i :=
        ⟨c % 25, Nat.mod_lt _ (by norm_num), rfl⟩
      have hlen : EnemyFactory.minionRoster.length = 25 := by
        simp [EnemyFactory.minionRoster]
      simp only [EnemyFactory.createEnemy, enemyBaseStats, hbossc, helitec,
        Bool.false_eq_true, if_false, if_true, EnemyFactory.createMinion,
        hlen, hieq]
      interval_cases i <;>
        simp [EnemyFactory.minionRoster, EnemyFactory.createGoblin,
          EnemyFactory.createSkeleton, EnemyFactory.createRat,
          EnemyFactory.createBat, EnemyFactory.createSlime,
          EnemyFactory.createZombie, EnemyFactory.createWolf,
          EnemyFactory.createSpider, EnemyFactory.createBandit,
          EnemyFactory.createCultist, EnemyFactory.createImp,
          EnemyFactory.createGhost, EnemyFactory.createWisp,
          EnemyFactory.createMushroom, EnemyFactory.createCrab,
          EnemyFactory.createSnake, EnemyFactory.createScorpion,
          EnemyFactory.createHarpy, EnemyFactory.createGremlin,
          EnemyFactory.createShadowling, EnemyFactory.createFireElemental,
          EnemyFactory.createIceElemental, EnemyFactory.createWindElemental,
          EnemyFactory.createEarthElemental, EnemyFactory.createCorruptedKnight,
          mkEnemy, EnemyFactory.scaleStats, h10, h5, hrpos]

/-- C7 witness: round 3, draw 0 yields the Goblin minion scaled to
`floor(30 * 1.45) = 43` HP and `floor(8 * 1.45) = 11` attack. -/
theorem C7_witness :
    (EnemyFactory.createEnemy 3 0).1.maxHP = 43 ∧
    (EnemyFactory.createEnemy 3 0).1.attack = 11 ∧
    (EnemyFactory.createEnemy 3 0).1.type = "minion" := by
  have h := C7_enemy_scaling_and_category 3 0 (by norm_num)
  refine ⟨?_, ?_, h.2.2.2.mpr (by norm_num)⟩
  · rw [h.1.1]
    norm_num [enemyBaseStats]
  · rw [h.1.2]
    norm_num [enemyBaseStats]

end DDT

namespace DDT

/-- The special-activation thresholds exactly as the spec's class roster
words them, one per class (symbol-count and/or stored-counter condition),
stated on the claim's side for comparison with `activateSpecial`. -/
def specialThresholdMet (className : String) (ctx : CombatContext)
    (c : Counters) : Prop :=
  if className = "Blade Dancer" then 2 ≤ countFaceType ctx.specialDice "crit"
  else if className = "Geomancer" then 1 ≤ countSymbol ctx.specialDice "stone"
  else if className = "Shadow Priest" then 5 ≤ c.darknessStacks
  else if className = "Pyromantic" then 3 ≤ countSymbol ctx.specialDice "flame"
  else if className = "Frost Weaver" then 2 ≤ countSymbol ctx.specialDice "frost"
  else if className = "Storm Caller" then 2 ≤ countSymbol ctx.specialDice "lightning"
  else if className = "Nature Shaman" then 3 ≤ countSymbol ctx.specialDice "nature"
  else if className = "Blood Knight" then 2 ≤ countSymbol ctx.specialDice "blood"
  else if className = "Holy Paladin" then
    2 ≤ countSymbol ctx.specialDice "holy" ∧ 5 ≤ c.holyPower
  else if className = "Chaos Mage" then 2 ≤ countSymbol ctx.specialDice "chaos"
  else if className = "Time Weaver" then
    3 ≤ countSymbol ctx.specialDice "time" ∧ 6 ≤ c.timeStacks
  else if className = "Spirit Summoner" then 3 ≤ countSymbol ctx.specialDice "spirit"
  else False

/-- The Chaos-Mage game state of the claim's boundary example: exactly one
"chaos" symbol assigned to the Special slot, no other dice. -/
def gC8 : GM :=
  { player := { className := "Chaos Mage" },
    enemy := mkEnemy "Goblin" "minion" 100 8 0,
    enemyBehavior := some (fun self _r =>
      (self, { type := "attack", value := self.attack })),
    currentRound := 1, gameState := "combat", hasRolled := true,
    assignedSpecial := [{ id := 1, isRolled := true,
                          currentFace := some { type := "special",
                                                symbol := some "chaos" } }] }

/-- C8: a Special-slot assignment below the class's activation threshold
returns success:false and leaves the player unchanged, for every class; and
in the same turn the passive still applies — with one chaos symbol the
Chaos Mage special fails while the Chaos Surge passive adds its +15 damage
(the enemy loses exactly 15 HP and the passive message is logged). -/
theorem C8_below_threshold_special_noop_passive_applies :
    (∀ (p : Player) (ctx : CombatContext) (rng : Rng),
      p.className ∈ ["Blade Dancer", "Geomancer", "Shadow Priest", "Pyromantic",
        "Frost Weaver", "Storm Caller", "Nature Shaman", "Blood Knight",
        "Holy Paladin", "Chaos Mage", "Time Weaver", "Spirit Summoner"] →
      ¬ specialThresholdMet p.className ctx p.specialCounters →
      p.activateSpecial ctx rng = (p, { success := some false })) ∧
    ((gC8.executeTurn { chaosIndex := 0 }).1.enemy.currentHP = 85 ∧
     (gC8.executeTurn { chaosIndex := 0 }).2.combatLog.head? =
       some (logE "player" "Chaos Surge: +15 damage!")) := by
  constructor
  · intro p ctx rng hmem hnot
    simp only [List.mem_cons, List.mem_singleton, List.not_mem_nil, or_false] at hmem
    rcases hmem with hc | hc | hc | hc | hc | hc | hc | hc | hc | hc | hc | hc <;>
      simp only [specialThresholdMet, hc] at hnot <;>
      simp only [String.reduceEq, if_true, if_false, ite_true, ite_false,
        reduceIte] at hnot <;>
      unfold Player.activateSpecial <;>
      simp only [hc] <;>
      simp [Player.bladeDancerSpecial, Player.geomancerSpecial,
        Player.shadowPriestSpecial, Player.pyromanticSpecial,
        Player.frostWeaverSpecial, Player.stormCallerSpecial,
        Player.natureShamanSpecial, Player.bloodKnightSpecial,
        Player.holyPaladinSpecial, Player.chaosMageSpecial,
        Player.timeWeaverSpecial, Player.spiritSummonerSpecial] <;>
      simp_all
  · constructor
    · with_unfolding_all rfl
    · with_unfolding_all rfl

end DDT

namespace DDT

/-- C8 witness: a Chaos Mage with exactly one chaos die assigned to the
Special slot gets `success := false` and an unchanged player from the
special attempt. -/
theorem C8_witness :
    Player.activateSpecial { className := "Chaos Mage" }
      { specialDice := [{ id := 1, isRolled := true,
                          currentFace := some { type := "special",
                                                symbol := some "chaos" } }] } {} =
    ({ className := "Chaos Mage" }, { success := some false }) := by
  apply C8_below_threshold_special_noop_passive_applies.1
  · simp
  · simp [specialThresholdMet, countSymbol, Die.getFaceSymbol]

end DDT

namespace DDT

/-- The Frost-Weaver game state of the claim's scenario: two dice showing
the "frost" symbol assigned to the Special slot, against a 30 HP, 10
attack, 0 defense flat attacker. -/
def gC6 : GM :=
  { player := { className := "Frost Weaver" },
    enemy := mkEnemy "Goblin" "minion" 30 10 0,
    enemyBehavior := some (fun self _r =>
      (self, { type := "attack", value := self.attack })),
    currentRound := 1, gameState := "combat", hasRolled := true,
    assignedSpecial :=
      [{ id := 1, isRolled := true,
         currentFace := some { type := "special", symbol := some "frost" } },
       { id := 2, isRolled := true,
         currentFace := some { type := "special", symbol := some "frost" } }] }

/-- C6: a Frost Weaver special with at least two frost symbols succeeds and
hands the turn engine a Frozen effect with attackReduction 0.5 and duration
2 to add to the enemy; an enemy carrying that Frozen effect has its next
attack action's value multiplied by (1 - 0.5) with integer floor inside
`executeAction`; and in the concrete scenario the executed turn reports the
halved attack (10 → 5) and leaves the Frozen effect (one tick consumed) on
the enemy. -/
theorem C6_frost_weaver_freezes_enemy :
    (∀ (p : Player) (ctx : CombatContext) (rng : Rng),
      p.className = "Frost Weaver" → 2 ≤ countSymbol ctx.specialDice "frost" →
      p.activateSpecial ctx rng =
        (p, { message := some "Frozen Prison! Enemy attack reduced by 50% for 2 rounds!",
              success := some true,
              applyEffect := some { name := "Frozen", attackReduction := some (1/2),
                                    duration := some 2 } })) ∧
    (∀ (e : EnemyData) (b : Behavior) (v : Int) (f : Effect) (r : ℚ),
      e.effects.find? (fun eff => eff.name == "Frozen") = some f →
      f.attackReduction = some (1/2) →
      (∀ e', b e' r = (e', { type := "attack", value := v })) →
      (e.executeAction (some b) r).2 =
        { type := "attack", value := Int.floor ((v : ℚ) * (1 - 1/2)) }) ∧
    ((gC6.executeTurn {}).2.enemyAction = some { type := "attack", value := 5 } ∧
     (gC6.executeTurn {}).1.enemy.effects =
       [{ name := "Frozen", attackReduction := some (1/2), duration := some 1 }]) := by
  refine ⟨?_, ?_, ?_, ?_⟩
  · intro p ctx rng hc hcount
    unfold Player.activateSpecial
    simp only [hc]
    simp [Player.frostWeaverSpecial, hcount]
  · intro e b v f r hfind hf hb
    have hmem : f ∈ e.effects := List.mem_of_find?_eq_some hfind
    have hpred := List.find?_some hfind
    have hany : e.effects.any (fun eff => eff.name == "Frozen") = true :=
      List.any_eq_true.mpr ⟨f, hmem, hpred⟩
    unfold EnemyData.executeAction EnemyData.getNextAction EnemyData.hasEffect
    simp only [hb, hfind, hany, hf]
    norm_num [truthyRat]
  · with_unfolding_all rfl
  · with_unfolding_all rfl

/-- C6 witness: the frost special evaluated at a concrete two-frost-dice
context, and the mitigation evaluated at a concrete frozen enemy. -/
theorem C6_witness :
    Player.activateSpecial { className := "Frost Weaver" }
      { specialDice := gC6.assignedSpecial } {} =
    ({ className := "Frost Weaver" },
     { message := some "Frozen Prison! Enemy attack reduced by 50% for 2 rounds!",
       success := some true,
       applyEffect := some { name := "Frozen", attackReduction := some (1/2),
                             duration := some 2 } }) := by
  apply C6_frost_weaver_freezes_enemy.1
  · rfl
  · show (2 : Int) ≤ countSymbol gC6.assignedSpecial "frost"
    norm_num [countSymbol, gC6, Die.getFaceSymbol]

end DDT

namespace DDT

/-- A combat state one fatal enemy blow away from defeat: player at 5 HP,
enemy a flat attacker with 20 attack, one attack die (value 3) assigned. -/
def gC1 : GM :=
  { player := { className := "Blade Dancer", currentHP := 5 },
    enemy := mkEnemy "Goblin" "minion" 30 20 0,
    enemyBehavior := some (fun self _r =>
      (self, { type := "attack", value := self.attack })),
    currentRound := 1, gameState := "combat", hasRolled := true,
    assignedAttack := some { id := 1, isRolled := true,
                             currentFace := some { type := "attack",
                                                   value := 3 } } }

/-- C1: the turn that kills the player ends in GameOver with the dice
assignments left in place, so `canExecuteTurn` still holds; a second
`executeTurn` call in the GameOver state is not rejected — it runs the full
turn again, returns success, damages the enemy again (26 → 21 HP) and
appends a second best-run entry. -/
theorem C1_executeTurn_not_rejected_after_gameOver :
    ((gC1.executeTurn {}).1.gameState = "gameOver" ∧
     (gC1.executeTurn {}).2.playerDefeated = true) ∧
    (gC1.executeTurn {}).1.canExecuteTurn = true ∧
    ((gC1.executeTurn {}).1.executeTurn {}).2.success = true ∧
    (gC1.executeTurn {}).1.enemy.currentHP = 26 ∧
    ((gC1.executeTurn {}).1.executeTurn {}).1.enemy.currentHP = 21 ∧
    (gC1.executeTurn {}).1.bestRuns.length = 1 ∧
    ((gC1.executeTurn {}).1.executeTurn {}).1.bestRuns.length = 2 := by
  with_unfolding_all exact ⟨⟨rfl, rfl⟩, rfl, rfl, rfl, rfl, rfl, rfl⟩

end DDT
